import Mathlib

/-!
Verification development for the kocom-wallpad RS485 bridge.

The transport, controller and gateway layers are embedded shallowly:
bytes are `Nat` values (with explicit `% 256` where overflow matters),
frames are `List Nat`, fallible code returns `Except`/`Option`, and the
event-loop code is modelled as explicit state passing.  Constants and
enumerations that live in the repository's `const.py`/`models.py`
(absent from the sources at hand) are modelled from the specification
and marked as such in their doc comments.
-/

namespace Kocom

/-- Modelled from the spec: the fixed two-byte frame header `AA 55`
(`PACKET_PREFIX` in `const.py`, which is not among the sources). -/
def PACKET_HEADER : List Nat := [0xAA, 0x55]

/-- Modelled from the spec: the fixed two-byte frame trailer `0D 0D`
(`PACKET_SUFFIX` in `const.py`, which is not among the sources). -/
def PACKET_SUFFIX : List Nat := [0x0D, 0x0D]

/-- Modelled from the spec: the fixed frame length of 21 bytes
(`PACKET_LEN` in `const.py`, which is not among the sources). -/
def PACKET_LEN : Nat := 21

/-- `AsyncConnection._checksum` / `KocomController._checksum`:
`sum(buf) % 256`. -/
def checksum (buf : List Nat) : Nat := buf.sum % 256

/-- The checksum validation performed by `AsyncConnection.recv_packet`
step 4: the computed checksum of `bytes[2:18]` must equal `bytes[18]`. -/
def checksumOk (p : List Nat) : Bool :=
  decide (p.getD 18 0 = checksum ((p.drop 2).take 16))

/-- The suffix validation performed by `AsyncConnection.recv_packet`
step 3: `packet_candidate.endswith(PACKET_SUFFIX)`. -/
def footOk (p : List Nat) : Bool :=
  decide (p.drop (p.length - 2) = PACKET_SUFFIX)

/-- `RingBuffer.find` for the two-byte header pattern: index of the first
occurrence of `AA 55`, or none. -/
def findHeader : List Nat → Option Nat
  | a :: b :: t =>
    if a = 0xAA ∧ b = 0x55 then some 0
    else (findHeader (b :: t)).map (· + 1)
  | _ => none

/-- `AsyncConnection.recv_packet`, modelled as a pure function.  The
incoming byte stream is a list of chunks (successive `reader.read`
results; an empty chunk is EOF, an exhausted list is a read timeout —
both make the Python coroutine return `None`).  `buf` is the ring-buffer
content, `errs` the consecutive-error counter used by
`_check_self_correction`.  `fuel` bounds the number of loop iterations;
the Python loop performs finitely many iterations on any finite stream,
and the theorems quantify over all fuels. -/
def recvGo : Nat → List (List Nat) → List Nat → Nat → Option (List Nat)
  | 0, _, _, _ => none
  | fuel + 1, chunks, buf, errs =>
    if buf.length < PACKET_LEN then
      match chunks with
      | [] => none
      | c :: rest => if c.isEmpty then none else recvGo fuel rest (buf ++ c) errs
    else
      match findHeader buf with
      | none =>
        let keep := if buf.getLast? = some 0xAA then [0xAA] else []
        recvGo fuel chunks keep errs
      | some start =>
        let b := buf.drop start
        if b.length < PACKET_LEN then recvGo fuel chunks b errs
        else
          let cand := b.take PACKET_LEN
          if ¬ footOk cand then
            if errs + 1 > 3 then none else recvGo fuel chunks (b.drop 1) (errs + 1)
          else if ¬ checksumOk cand then
            if errs + 1 > 3 then none else recvGo fuel chunks (b.drop 1) (errs + 1)
          else some cand

/-! ### Controller data model

`const.py` and `models.py` are not among the sources; the enumerations,
code maps and key/state records they define are modelled from the
specification (§3, §4.3, §6). -/

/-- Modelled from the spec: the closed set of device-type codes
(`DeviceType` in `const.py`). -/
inductive DeviceType where
  | light | outlet | thermostat | airconditioner | ventilation
  | gasvalve | elevator | motion | airquality | lightcutoff | unknown
deriving DecidableEq

/-- Modelled from the spec: sub-entity kinds under one physical unit
(`SubType` in `const.py`). -/
inductive SubType where
  | none | hottemp | heattemp | errcode | co2 | direction | floor
  | pm10 | pm25 | voc | temp | humidity
deriving DecidableEq

/-- The host platform kinds a decoded state is tagged with. -/
inductive Platform where
  | light | switch | climate | sensor | binary_sensor | fan
deriving DecidableEq

/-- Climate HVAC modes used by the thermostat and air-conditioner handlers. -/
inductive HVACMode where
  | heat | off | cool | dry | fan_only | auto
deriving DecidableEq

/-- Modelled from the spec: wire code → device type (`DEVICE_TYPE_MAP` in
`models.py`).  The concrete code values are representative; no claim
settled here depends on which byte maps to which type, only on the map
being a closed, injective table without `lightcutoff`/`unknown`. -/
def DEVICE_TYPE_MAP : List (Nat × DeviceType) :=
  [(0x0E, .light), (0x3B, .outlet), (0x36, .thermostat), (0x39, .airconditioner),
   (0x48, .ventilation), (0x2C, .gasvalve), (0x44, .elevator), (0x60, .motion),
   (0x98, .airquality)]

/-- Modelled from the spec: air-conditioner payload code → HVAC mode
(`AIRCONDITIONER_HVAC_MAP` in `models.py`); representative entries. -/
def AIRCONDITIONER_HVAC_MAP : List (Nat × HVACMode) :=
  [(0x00, .cool), (0x01, .fan_only), (0x02, .dry), (0x03, .auto)]

/-- Modelled from the spec: air-conditioner payload code → fan mode
(`AIRCONDITIONER_FAN_MAP` in `models.py`); representative entries. -/
def AIRCONDITIONER_FAN_MAP : List (Nat × String) :=
  [(0x01, "low"), (0x02, "medium"), (0x03, "high")]

/-- Modelled from the spec: ventilation payload code → preset name
(`VENTILATION_PRESET_MAP` in `models.py`).  The spec's dynamically
discovered ventilation preset names require at least one name besides
the default "ventilation"; the entries are representative. -/
def VENTILATION_PRESET_MAP : List (Nat × String) :=
  [(0x00, "ventilation"), (0x01, "auto"), (0x02, "bypass")]

/-- Modelled from the spec: elevator payload code → direction label
(`ELEVATOR_DIRECTION_MAP` in `models.py`); representative entries. -/
def ELEVATOR_DIRECTION_MAP : List (Nat × String) :=
  [(0x01, "down"), (0x02, "up"), (0x03, "arrived")]

/-- Association-list lookup, modelling Python `dict.get`. -/
def alookup {α β : Type} [DecidableEq α] (m : List (α × β)) (k : α) : Option β :=
  (m.find? fun p => decide (p.1 = k)).map (·.2)

/-- Association-list update, modelling Python `dict.__setitem__`
(later entries shadow earlier ones under `alookup`). -/
def aset {α β : Type} [DecidableEq α] (m : List (α × β)) (k : α) (v : β) : List (α × β) :=
  (k, v) :: m

/-- Reverse lookup, modelling the `{v: k for k, v in m.items()}` maps. -/
def rlookup {α β : Type} [DecidableEq β] (m : List (α × β)) (v : β) : Option α :=
  (m.find? fun p => decide (p.2 = v)).map (·.1)

/-- `DeviceKey` (`models.py`, §3): the identity tuple
(deviceType, roomIndex, deviceIndex, subType). -/
structure DeviceKey where
  device_type : DeviceType
  room_index : Nat
  device_index : Nat
  sub_type : SubType
deriving DecidableEq

def dtName : DeviceType → String
  | .light => "light" | .outlet => "outlet" | .thermostat => "thermostat"
  | .airconditioner => "airconditioner" | .ventilation => "ventilation"
  | .gasvalve => "gasvalve" | .elevator => "elevator" | .motion => "motion"
  | .airquality => "airquality" | .lightcutoff => "lightcutoff" | .unknown => "unknown"

def subName : SubType → String
  | .none => "none" | .hottemp => "hottemp" | .heattemp => "heattemp"
  | .errcode => "errcode" | .co2 => "co2" | .direction => "direction"
  | .floor => "floor" | .pm10 => "pm10" | .pm25 => "pm25" | .voc => "voc"
  | .temp => "temp" | .humidity => "humidity"

/-- Modelled from the spec: `DeviceKey.unique_id` (`models.py`), an
injective string encoding of the key used by the calibration store and
the platform index. -/
def uniqueId (k : DeviceKey) : String :=
  dtName k.device_type ++ "_" ++ Nat.repr k.room_index ++ "_" ++
    Nat.repr k.device_index ++ "_" ++ subName k.sub_type

/-- State payloads of a `DeviceState`: Python scalars and the per-type
state dictionaries built by the handlers. -/
inductive SVal where
  | b (x : Bool)
  | n (x : Nat)
  | s (x : String)
  | thermo (hvacHeat : Bool) (presetAway : Bool) (target current : ℚ)
  | ac (hvac : HVACMode) (fan : String) (current target : ℚ)
  | vent (isOn : Bool) (preset : String) (speed : Nat)
deriving DecidableEq

inductive SensorClass where
  | temperature | co2 | pm10 | pm25 | voc | humidity
deriving DecidableEq

/-- Attribute dictionaries built by the handlers; each constructor stands
for one literal dictionary shape in `controller.py`, with its
frame/storage-dependent entries as parameters. -/
inductive Attr where
  | empty
  | outlet
  | thermoA (step : ℚ)
  | sensor (cls : SensorClass) (unit : String)
  | problem (errorCode : Nat)
  | acA
  | ventA (featurePreset : Bool) (presetModes : List String)
  | motionA
deriving DecidableEq

/-- `DeviceState` (`models.py`, §3).  `isRegister` models the dynamic
`_is_register` flag set by `_handle_switch`; `packet` models `_packet`
set by `_dispatch_packet`. -/
structure DeviceState where
  key : DeviceKey
  platform : Platform
  attributes : Attr
  state : SVal
  isRegister : Option Bool := Option.none
  packet : List Nat := []
deriving DecidableEq

/-- `KocomController._device_storage`, the string-keyed calibration
dictionary: the rational-valued thermostat entries (`*_thermo_step`,
`*_thermo_target`, `*_thermo_current`) plus the ventilation and elevator
flags. -/
structure Storage where
  qvals : List (String × ℚ) := []
  ventilFeature : Option Bool := Option.none
  ventilModes : Option (List String) := Option.none
  availableFloor : Option Bool := Option.none
deriving DecidableEq

def Storage.empty : Storage := ⟨[], Option.none, Option.none, Option.none⟩

/-- Python `x % 1` for the nonnegative floats handled here. -/
def pyMod1 (q : ℚ) : ℚ := q - (⌊q⌋ : ℚ)

/-! ### PacketFrame accessors (`controller.py`) -/

/-- `PacketFrame.packet_type`: `(raw[3] >> 4) & 0x0F`. -/
def packet_type (f : List Nat) : Nat := (f.getD 3 0 / 16) % 16

/-- `PacketFrame.command`: `raw[9]`. -/
def frame_command (f : List Nat) : Nat := f.getD 9 0

/-- `PacketFrame.payload`: `raw[10:18]`, accessed bytewise. -/
def payload (f : List Nat) (i : Nat) : Nat := f.getD (10 + i) 0

/-- `PacketFrame.peer`: the non-hub (type, room) address pair; `(0, 0)`
when neither side is the hub address `0x01`. -/
def peer (f : List Nat) : Nat × Nat :=
  if f.getD 5 0 = 0x01 then (f.getD 7 0, f.getD 8 0)
  else if f.getD 7 0 = 0x01 then (f.getD 5 0, f.getD 6 0)
  else (0, 0)

/-- `PacketFrame.dev_type`: `DEVICE_TYPE_MAP` lookup defaulting to unknown. -/
def dev_type (f : List Nat) : DeviceType :=
  (alookup DEVICE_TYPE_MAP (peer f).1).getD .unknown

/-- `PacketFrame.dev_room`. -/
def dev_room (f : List Nat) : Nat := (peer f).2

/-! ### Decode handlers (`controller.py`) -/

/-- `KocomController._handle_cutoff_switch`. -/
def handle_cutoff (f : List Nat) : List DeviceState :=
  if frame_command f = 0x65 ∨ frame_command f = 0x66 then
    [⟨⟨dev_type f, 0, 0, .none⟩, .light, .empty, .b (frame_command f = 0x65),
      Option.none, []⟩]
  else []

/-- `KocomController._handle_switch`: one state per channel, with the
auto-registration flag set exactly when the channel byte is `0xFF`. -/
def handle_switch (f : List Nat) : List DeviceState :=
  if frame_command f = 0x00 then
    (List.range 8).map fun idx =>
      let platform := if dev_type f = .light then Platform.light else Platform.switch
      let attr := if platform = Platform.switch then Attr.outlet else Attr.empty
      let chanOn := payload f idx = 0xFF
      ⟨⟨dev_type f, dev_room f, idx, .none⟩, platform, attr, .b chanOn, some chanOn, []⟩
  else []

/-- `KocomController._handle_thermostat`, including the sanity checks and
the calibration-store reads (performed before) and writes (performed
after building the state). -/
def handle_thermostat (st : Storage) (f : List Nat) : List DeviceState × Storage :=
  if frame_command f = 0x00 then
    let key : DeviceKey := ⟨dev_type f, dev_room f, 0, .none⟩
    let uid := uniqueId key
    let hvacHeat := payload f 0 / 16 = 0x01
    let presetAway := payload f 1 % 16 = 0x01
    let rawTarget := payload f 2
    let rawCurrent := payload f 4
    let targetTemp : ℚ :=
      if rawTarget = 0xFF ∨ ¬ ((0 : ℚ) ≤ (rawTarget : ℚ) ∧ (rawTarget : ℚ) ≤ 50) then 0
      else (rawTarget : ℚ)
    let currentTemp : ℚ :=
      if rawCurrent = 0xFF ∨ ¬ ((0 : ℚ) ≤ (rawCurrent : ℚ) ∧ (rawCurrent : ℚ) ≤ 50) then 0
      else (rawCurrent : ℚ)
    let hotTemp := payload f 3
    let heatTemp := payload f 5
    let errorCode := payload f 6
    let attr := Attr.thermoA ((alookup st.qvals (uid ++ "_thermo_step")).getD 1)
    let stTarget := (alookup st.qvals (uid ++ "_thermo_target")).getD targetTemp
    let stCurrent := (alookup st.qvals (uid ++ "_thermo_current")).getD currentTemp
    let st1 :=
      if pyMod1 targetTemp = 1/2 ∧ alookup st.qvals (uid ++ "_thermo_step") ≠ some (1/2)
      then { st with qvals := aset st.qvals (uid ++ "_thermo_step") (1/2) } else st
    let st2 :=
      if targetTemp ≠ 0 ∧ currentTemp ≠ 0 then
        let stA :=
          if hvacHeat ∧ alookup st1.qvals (uid ++ "_thermo_target") ≠ some targetTemp
          then { st1 with qvals := aset st1.qvals (uid ++ "_thermo_target") targetTemp }
          else st1
        { stA with qvals := aset stA.qvals (uid ++ "_thermo_current") currentTemp }
      else st1
    let climate : DeviceState :=
      ⟨key, .climate, attr, .thermo hvacHeat presetAway stTarget stCurrent, Option.none, []⟩
    let hotDevs : List DeviceState :=
      if 0 < hotTemp ∧ hotTemp ≤ 80 then
        [⟨⟨dev_type f, dev_room f, 0, .hottemp⟩, .sensor, .sensor .temperature "°C",
          .n hotTemp, Option.none, []⟩]
      else []
    let heatDevs : List DeviceState :=
      if 0 < heatTemp ∧ heatTemp ≤ 80 then
        [⟨⟨dev_type f, dev_room f, 0, .heattemp⟩, .sensor, .sensor .temperature "°C",
          .n heatTemp, Option.none, []⟩]
      else []
    let errDev : DeviceState :=
      ⟨⟨dev_type f, dev_room f, 0, .errcode⟩, .binary_sensor, .problem errorCode,
        .b (errorCode ≠ 0), Option.none, []⟩
    (climate :: (hotDevs ++ heatDevs ++ [errDev]), st2)
  else ([], st)

/-- `KocomController._handle_airconditioner`. -/
def handle_airconditioner (f : List Nat) : List DeviceState :=
  if frame_command f = 0x00 then
    let hvac :=
      if payload f 0 = 0x10 then (alookup AIRCONDITIONER_HVAC_MAP (payload f 1)).getD .off
      else HVACMode.off
    let fan := (alookup AIRCONDITIONER_FAN_MAP (payload f 2)).getD "low"
    let rawCurrent := payload f 4
    let rawTarget := payload f 5
    let currentTemp : ℚ :=
      if rawCurrent = 0xFF ∨ ¬ ((0 : ℚ) ≤ (rawCurrent : ℚ) ∧ (rawCurrent : ℚ) ≤ 50) then 0
      else (rawCurrent : ℚ)
    let targetTemp : ℚ :=
      if rawTarget = 0xFF ∨ ¬ ((0 : ℚ) ≤ (rawTarget : ℚ) ∧ (rawTarget : ℚ) ≤ 50) then 0
      else (rawTarget : ℚ)
    [⟨⟨dev_type f, dev_room f, 0, .none⟩, .climate, .acA,
      .ac hvac fan currentTemp targetTemp, Option.none, []⟩]
  else []

/-- `KocomController._handle_ventilation`: the attribute dictionary reads
the calibration store before the preset-discovery writes below it. -/
def handle_ventilation (st : Storage) (f : List Nat) : List DeviceState × Storage :=
  if frame_command f = 0x00 then
    let key : DeviceKey := ⟨dev_type f, dev_room f, 0, .none⟩
    let isOn := payload f 0 / 16 = 0x01
    let presetMode := (alookup VENTILATION_PRESET_MAP (payload f 1)).getD "unknown"
    let speed := payload f 2
    let co2Value := payload f 4 * 100 + payload f 5
    let errorCode := payload f 6
    let attr := Attr.ventA (st.ventilFeature.getD false) (st.ventilModes.getD [])
    let st1 :=
      if presetMode ≠ "unknown" ∧ presetMode ≠ "ventilation" then
        let stA :=
          if st.ventilModes = Option.none
          then { st with ventilFeature := some true, ventilModes := some ["ventilation"] }
          else st
        let modes := stA.ventilModes.getD []
        if presetMode ∉ modes then { stA with ventilModes := some (modes ++ [presetMode]) }
        else stA
      else st
    let fanDev : DeviceState := ⟨key, .fan, attr, .vent isOn presetMode speed, Option.none, []⟩
    let co2Devs : List DeviceState :=
      if 0 < co2Value ∧ co2Value < 5000 then
        [⟨⟨dev_type f, dev_room f, 0, .co2⟩, .sensor, .sensor .co2 "ppm",
          .n co2Value, Option.none, []⟩]
      else []
    let errDev : DeviceState :=
      ⟨⟨dev_type f, dev_room f, 0, .errcode⟩, .binary_sensor, .problem errorCode,
        .b (errorCode ≠ 0), Option.none, []⟩
    (fanDev :: (co2Devs ++ [errDev]), st1)
  else ([], st)

/-- `KocomController._handle_gasvalve`. -/
def handle_gasvalve (f : List Nat) : List DeviceState :=
  if frame_command f = 0x01 ∨ frame_command f = 0x02 then
    [⟨⟨dev_type f, dev_room f, 0, .none⟩, .switch, .empty,
      .b (frame_command f = 0x01), Option.none, []⟩]
  else []

/-- `KocomController._handle_elevator`: the sticky `available_floor` flag
is written before it is read back for the floor sensor. -/
def handle_elevator (st : Storage) (f : List Nat) : List DeviceState × Storage :=
  let dt := dev_type f
  let room := dev_room f
  let swState :=
    if payload f 0 = 0x03 then false
    else if payload f 0 = 0x01 ∨ payload f 0 = 0x02 ∨ packet_type f = 0x0D then true
    else false
  let swDev : DeviceState := ⟨⟨dt, room, 0, .none⟩, .switch, .empty, .b swState, Option.none, []⟩
  let dirState :=
    if payload f 0 = 0x00 ∧ packet_type f = 0x0D then "called"
    else (alookup ELEVATOR_DIRECTION_MAP (payload f 0)).getD "unknown"
  let dirDev : DeviceState :=
    ⟨⟨dt, room, 0, .direction⟩, .sensor, .empty, .s dirState, Option.none, []⟩
  let floorState :=
    if payload f 1 = 0 then "unknown"
    else if payload f 2 ≠ 0 then
      (Char.ofNat (payload f 1)).toString ++ (Char.ofNat (payload f 2)).toString
    else if payload f 1 / 16 = 0x08 then "B" ++ Nat.repr (payload f 1 % 16)
    else Nat.repr (payload f 1)
  let st1 :=
    if floorState ≠ "" ∧ floorState ≠ "unknown" then { st with availableFloor := some true }
    else st
  let floorDevs : List DeviceState :=
    if st1.availableFloor.getD false then
      [⟨⟨dt, room, 0, .floor⟩, .sensor, .empty, .s floorState, Option.none, []⟩]
    else []
  ([swDev, dirDev] ++ floorDevs, st1)

/-- `KocomController._handle_motion`. -/
def handle_motion (f : List Nat) : List DeviceState :=
  if frame_command f = 0x00 ∨ frame_command f = 0x04 then
    [⟨⟨dev_type f, dev_room f, 0, .none⟩, .binary_sensor, .motionA,
      .b (frame_command f = 0x04), Option.none, []⟩]
  else []

/-- `KocomController._handle_airquality`. -/
def handle_airquality (f : List Nat) : List DeviceState :=
  if frame_command f = 0x00 ∨ frame_command f = 0x3A then
    let entries : List (SubType × SensorClass × String × Nat) :=
      [(.pm10, .pm10, "µg/m³", payload f 0),
       (.pm25, .pm25, "µg/m³", payload f 1),
       (.co2, .co2, "ppm", payload f 2 * 256 + payload f 3),
       (.voc, .voc, "µg/m³", payload f 4 * 256 + payload f 5),
       (.temp, .temperature, "°C", payload f 6),
       (.humidity, .humidity, "%", payload f 7)]
    entries.filterMap fun e =>
      if 0 < e.2.2.2 then
        some ⟨⟨dev_type f, dev_room f, 0, e.1⟩, .sensor, .sensor e.2.1 e.2.2.1,
          .n e.2.2.2, Option.none, []⟩
      else Option.none
  else []

/-- `KocomController._dispatch_packet`: checksum re-validation, per-type
dispatch, and attaching the originating frame to each produced state. -/
def dispatch (st : Storage) (p : List Nat) : List DeviceState × Storage :=
  if checksum ((p.drop 2).take 16) ≠ p.getD 18 0 then ([], st)
  else
    let withPacket := fun (l : List DeviceState) => l.map fun d => { d with packet := p }
    match dev_type p with
    | .light =>
      if dev_room p = 0xFF then (withPacket (handle_cutoff p), st)
      else (withPacket (handle_switch p), st)
    | .outlet => (withPacket (handle_switch p), st)
    | .thermostat =>
      let r := handle_thermostat st p
      (withPacket r.1, r.2)
    | .airconditioner => (withPacket (handle_airconditioner p), st)
    | .ventilation =>
      let r := handle_ventilation st p
      (withPacket r.1, r.2)
    | .gasvalve => (withPacket (handle_gasvalve p), st)
    | .elevator =>
      let r := handle_elevator st p
      (withPacket r.1, r.2)
    | .motion => (withPacket (handle_motion p), st)
    | .airquality => (withPacket (handle_airquality p), st)
    | _ => ([], st)

/-! ### EntityRegistry (`gateway.py`) -/

/-- `EntityRegistry`: the authoritative key → state map plus the
platform-indexed view (the shadow map stays empty in the flows modelled
here and is omitted). -/
structure Registry where
  states : List (DeviceKey × DeviceState) := []
  byPlatform : List (Platform × List (String × DeviceState)) := []
deriving DecidableEq

def Registry.empty : Registry := ⟨[], []⟩

def bpGet (bp : List (Platform × List (String × DeviceState))) (pl : Platform) :
    List (String × DeviceState) :=
  (alookup bp pl).getD []

/-- Python `dict.pop(k, None)`. -/
def sDel (m : List (String × DeviceState)) (k : String) : List (String × DeviceState) :=
  m.filter fun e => decide (e.1 ≠ k)

/-- `EntityRegistry.upsert`: returns the `(isNew, changed)` flags and the
updated registry. -/
def upsert (reg : Registry) (dev : DeviceState) (allowInsert : Bool) :
    (Bool × Bool) × Registry :=
  match alookup reg.states dev.key with
  | Option.none =>
    if allowInsert then
      ((true, true),
       ⟨aset reg.states dev.key dev,
        aset reg.byPlatform dev.platform
          (aset (bpGet reg.byPlatform dev.platform) (uniqueId dev.key) dev)⟩)
    else ((false, false), reg)
  | some old =>
    let platformChanged := old.platform ≠ dev.platform
    if platformChanged ∨ old.state ≠ dev.state ∨ old.attributes ≠ dev.attributes then
      let bp0 :=
        if platformChanged then
          aset reg.byPlatform old.platform
            (sDel (bpGet reg.byPlatform old.platform) (uniqueId old.key))
        else reg.byPlatform
      ((false, true),
       ⟨aset reg.states dev.key dev,
        aset bp0 dev.platform (aset (bpGet bp0 dev.platform) (uniqueId dev.key) dev)⟩)
    else ((false, false), reg)

/-- `EntityRegistry.get` (without the shadow map). -/
def regGet (reg : Registry) (k : DeviceKey) : Option DeviceState :=
  alookup reg.states k

/-- `KocomGateway.on_device_state`, restricted to its registry effect:
the auto-registration gate for light/outlet states, then `upsert`. -/
def on_device_state (forceUid : Option String) (reg : Registry) (dev : DeviceState) :
    (Bool × Bool) × Registry :=
  let allowInsert :=
    if dev.key.device_type = .light ∨ dev.key.device_type = .outlet then
      (dev.isRegister.getD true) || decide (forceUid = some (uniqueId dev.key))
    else true
  upsert reg dev allowInsert

/-! ### Controller encode and confirmation predicates (`controller.py`) -/

/-- Modelled from the spec: the away/none climate preset labels
(`PRESET_AWAY`/`PRESET_NONE` host constants). -/
def PRESET_AWAY : String := "away"

def PRESET_NONE : String := "none"

/-- Modelled from the spec: the type-specific default confirmation
timeout (`CMD_CONFIRM_TIMEOUT` in `const.py`); the concrete value is
representative and no claim depends on it. -/
def CMD_CONFIRM_TIMEOUT : ℚ := 1

/-- An action name together with its keyword parameters; `other` stands
for any action string the generators and predicates do not recognise. -/
inductive Action where
  | turn_on
  | turn_off
  | set_preset (preset_mode : String)
  | set_percentage (speed : Nat)
  | set_hvac (hvac_mode : HVACMode)
  | set_fan (fan_mode : String)
  | set_temperature (target_temp : ℚ)
  | other (name : String)
deriving DecidableEq

/-- The dynamically typed "predicate" slot of an expectation pair: either
a callable predicate, or the literal Python `True` that
`_expect_for_gasvalve` returns for `turn_on` (a bool is not callable). -/
inductive ExpectPred where
  | fn (p : DeviceState → Bool)
  | pyTrue

/-- Python truthiness of a state value (`bool(dev.state)`); the composite
state dictionaries are nonempty, hence truthy. -/
def pyTruthy : SVal → Bool
  | .b x => x
  | .n x => decide (x ≠ 0)
  | .s x => decide (x ≠ "")
  | .thermo _ _ _ _ => true
  | .ac _ _ _ _ => true
  | .vent _ _ _ => true

/-- `isinstance(d.state, dict)`. -/
def isDict : SVal → Bool
  | .thermo _ _ _ _ => true
  | .ac _ _ _ _ => true
  | .vent _ _ _ => true
  | _ => false

/-- `d.state.get("state")` on the composite dictionaries. -/
def stateField : SVal → Option Bool
  | .vent isOn _ _ => some isOn
  | _ => Option.none

/-- `d.state.get("preset_mode")`. -/
def presetField : SVal → Option String
  | .vent _ pm _ => some pm
  | .thermo _ pa _ _ => some (if pa then PRESET_AWAY else PRESET_NONE)
  | _ => Option.none

/-- `d.state.get("speed")`. -/
def speedField : SVal → Option Nat
  | .vent _ _ sp => some sp
  | _ => Option.none

/-- `d.state.get("hvac_mode")`. -/
def hvacField : SVal → Option HVACMode
  | .thermo hh _ _ _ => some (if hh then .heat else .off)
  | .ac hv _ _ _ => some hv
  | _ => Option.none

/-- `d.state.get("fan_mode")`. -/
def fanField : SVal → Option String
  | .ac _ fm _ _ => some fm
  | _ => Option.none

/-- `d.state.get("target_temp")`. -/
def targetField : SVal → Option ℚ
  | .thermo _ _ t _ => some t
  | .ac _ _ _ t => some t
  | _ => Option.none

/-- `KocomController._match_key_and`. -/
def match_key_and (key : DeviceKey) (cond : DeviceState → Bool) : DeviceState → Bool :=
  fun d => if d.key ≠ key then false else cond d

/-- `KocomController._expect_for_switch_like`. -/
def expect_for_switch_like (key : DeviceKey) (a : Action) : ExpectPred × ℚ :=
  match a with
  | .turn_on =>
    (.fn (match_key_and key fun d => decide (pyTruthy d.state = true)), CMD_CONFIRM_TIMEOUT)
  | .turn_off =>
    (.fn (match_key_and key fun d => decide (pyTruthy d.state = false)), CMD_CONFIRM_TIMEOUT)
  | _ => (.fn (match_key_and key fun _ => false), CMD_CONFIRM_TIMEOUT)

/-- `KocomController._expect_for_ventilation`. -/
def expect_for_ventilation (key : DeviceKey) (a : Action) : ExpectPred × ℚ :=
  match a with
  | .turn_on =>
    (.fn (match_key_and key fun d => decide (isDict d.state = true ∧ stateField d.state = some true)),
     CMD_CONFIRM_TIMEOUT)
  | .turn_off =>
    (.fn (match_key_and key fun d => decide (isDict d.state = true ∧ stateField d.state = some false)),
     CMD_CONFIRM_TIMEOUT)
  | .set_preset pm =>
    (.fn (match_key_and key fun d => decide (isDict d.state = true ∧ presetField d.state = some pm)),
     CMD_CONFIRM_TIMEOUT)
  | .set_percentage sp =>
    (.fn (match_key_and key fun d => decide (isDict d.state = true ∧ speedField d.state = some sp)),
     CMD_CONFIRM_TIMEOUT)
  | _ => (.fn (match_key_and key fun _ => false), CMD_CONFIRM_TIMEOUT)

/-- `KocomController._expect_for_gasvalve`: for `turn_on` the code
returns the literal `True` in the predicate position. -/
def expect_for_gasvalve (key : DeviceKey) (a : Action) : ExpectPred × ℚ :=
  let baseTimeout := max CMD_CONFIRM_TIMEOUT (3/2)
  match a with
  | .turn_on => (.pyTrue, baseTimeout)
  | .turn_off =>
    (.fn (match_key_and key fun d => decide (pyTruthy d.state = false)), baseTimeout)
  | _ => (.fn (match_key_and key fun _ => false), baseTimeout)

/-- `KocomController._expect_for_thermostat`. -/
def expect_for_thermostat (key : DeviceKey) (a : Action) : ExpectPred × ℚ :=
  match a with
  | .set_hvac hm =>
    (.fn (match_key_and key fun d => decide (isDict d.state = true ∧ hvacField d.state = some hm)),
     CMD_CONFIRM_TIMEOUT)
  | .set_preset pm =>
    (.fn (match_key_and key fun d => decide (isDict d.state = true ∧ presetField d.state = some pm)),
     CMD_CONFIRM_TIMEOUT)
  | .set_temperature tt =>
    (.fn (match_key_and key fun d => decide (isDict d.state = true ∧ targetField d.state = some tt)),
     max CMD_CONFIRM_TIMEOUT (3/2))
  | .turn_on =>
    (.fn (match_key_and key fun d => decide (isDict d.state = true ∧ stateField d.state = some true)),
     CMD_CONFIRM_TIMEOUT)
  | .turn_off =>
    (.fn (match_key_and key fun d => decide (isDict d.state = true ∧ stateField d.state = some false)),
     CMD_CONFIRM_TIMEOUT)
  | _ => (.fn (match_key_and key fun _ => false), CMD_CONFIRM_TIMEOUT)

/-- `KocomController._expect_for_airconditioner`. -/
def expect_for_airconditioner (key : DeviceKey) (a : Action) : ExpectPred × ℚ :=
  match a with
  | .set_hvac hm =>
    (.fn (match_key_and key fun d => decide (isDict d.state = true ∧ hvacField d.state = some hm)),
     CMD_CONFIRM_TIMEOUT)
  | .set_fan fm =>
    (.fn (match_key_and key fun d => decide (isDict d.state = true ∧ fanField d.state = some fm)),
     CMD_CONFIRM_TIMEOUT)
  | .set_preset pm =>
    (.fn (match_key_and key fun d => decide (isDict d.state = true ∧ presetField d.state = some pm)),
     CMD_CONFIRM_TIMEOUT)
  | .set_temperature tt =>
    (.fn (match_key_and key fun d => decide (isDict d.state = true ∧ targetField d.state = some tt)),
     max CMD_CONFIRM_TIMEOUT (3/2))
  | .turn_on =>
    (.fn (match_key_and key fun d => decide (isDict d.state = true ∧ stateField d.state = some true)),
     CMD_CONFIRM_TIMEOUT)
  | .turn_off =>
    (.fn (match_key_and key fun d => decide (isDict d.state = true ∧ stateField d.state = some false)),
     CMD_CONFIRM_TIMEOUT)
  | _ => (.fn (match_key_and key fun _ => false), CMD_CONFIRM_TIMEOUT)

/-- `KocomController.build_expectation`. -/
def build_expectation (key : DeviceKey) (a : Action) : ExpectPred × ℚ :=
  match key.device_type with
  | .light => expect_for_switch_like key a
  | .lightcutoff => expect_for_switch_like key a
  | .outlet => expect_for_switch_like key a
  | .elevator => expect_for_switch_like key a
  | .ventilation => expect_for_ventilation key a
  | .gasvalve => expect_for_gasvalve key a
  | .thermostat => expect_for_thermostat key a
  | .airconditioner => expect_for_airconditioner key a
  | _ => (.fn (match_key_and key fun _ => false), CMD_CONFIRM_TIMEOUT)

/-- Python `int()` truncation toward zero on a rational. -/
def pyInt (q : ℚ) : Int := q.num.tdiv (q.den : Int)

/-- A `bytearray` element assignment: values outside `0..255` raise. -/
def byteOf (v : Int) : Except String Nat :=
  if 0 ≤ v ∧ v < 256 then .ok v.toNat else .error "bytearray value out of range"

/-- `KocomController._generate_switch`: the seven sibling channel bytes
are filled from the registry's current state. -/
def generate_switch (reg : Registry) (key : DeviceKey) (a : Action) : List Nat :=
  (List.range 8).map fun idx =>
    if idx ≠ key.device_index then
      match regGet reg { key with device_index := idx } with
      | some st => if st.state = SVal.b true then 0xFF else 0x00
      | Option.none => 0x00
    else if a = .turn_on then 0xFF else 0x00

/-- `KocomController._generate_ventilation`; an unknown preset raises
`KeyError` through the reverse map. -/
def generate_ventilation (a : Action) : Except String (List Nat) :=
  match a with
  | .set_preset pm =>
    match rlookup VENTILATION_PRESET_MAP pm with
    | some code => .ok [0x11, code, 0, 0, 0, 0, 0, 0]
    | Option.none => .error "KeyError: preset_mode"
  | .set_percentage speed =>
    if speed < 256 then .ok [if speed = 0 then 0x00 else 0x11, 0, speed, 0, 0, 0, 0, 0]
    else .error "bytearray value out of range"
  | .turn_on => .ok [0x11, 0, 0, 0, 0, 0, 0, 0]
  | _ => .ok [0x00, 0, 0, 0, 0, 0, 0, 0]

/-- `KocomController._generate_thermostat`: an unrecognised action leaves
the payload all zeros (no error is raised). -/
def generate_thermostat (a : Action) : Except String (List Nat) :=
  match a with
  | .set_hvac hm => .ok [if hm = .heat then 0x11 else 0x00, 0x00, 0, 0, 0, 0, 0, 0]
  | .set_preset pm => .ok [0x11, if pm = PRESET_AWAY then 0x01 else 0x00, 0, 0, 0, 0, 0, 0]
  | .set_temperature tt =>
    match byteOf (pyInt tt) with
    | .ok v => .ok [0x11, 0, v, 0, 0, 0, 0, 0]
    | .error e => .error e
  | _ => .ok (List.replicate 8 0)

/-- `KocomController._generate_airconditioner`. -/
def generate_airconditioner (a : Action) : Except String (List Nat) :=
  match a with
  | .set_hvac hm =>
    if hm = .off then .ok (List.replicate 8 0)
    else
      match rlookup AIRCONDITIONER_HVAC_MAP hm with
      | some code => .ok [0x10, code, 0, 0, 0, 0, 0, 0]
      | Option.none => .error "KeyError: hvac_mode"
  | .set_fan fm =>
    match rlookup AIRCONDITIONER_FAN_MAP fm with
    | some code => .ok [0x10, 0, code, 0, 0, 0, 0, 0]
    | Option.none => .error "KeyError: fan_mode"
  | .set_temperature tt =>
    match byteOf (pyInt tt) with
    | .ok v => .ok [0x10, 0, 0, 0, 0, v, 0, 0]
    | .error e => .error e
  | _ => .ok (List.replicate 8 0)

/-- `KocomController.generate_command`: fixed outbound header
(`30 BC`, padding, addresses with hub `01`, command byte), a per-type
payload, checksum, and the expectation pair.  Failures (`ValueError` for
device types without a generator, byte-range or `KeyError` failures in
the payload generators) are returned as errors. -/
def generate_command (reg : Registry) (key : DeviceKey) (a : Action) :
    Except String (List Nat × ExpectPred × ℚ) :=
  match rlookup DEVICE_TYPE_MAP key.device_type with
  | Option.none => .error "Invalid device type"
  | some dtc =>
    let fieldsE : Except String (Nat × Nat × Nat × Nat × Nat × List Nat) :=
      match key.device_type with
      | .light => .ok (dtc, key.room_index % 256, 0x01, 0x00, 0x00, generate_switch reg key a)
      | .outlet => .ok (dtc, key.room_index % 256, 0x01, 0x00, 0x00, generate_switch reg key a)
      | .ventilation =>
        (generate_ventilation a).map fun d => (dtc, key.room_index % 256, 0x01, 0x00, 0x00, d)
      | .thermostat =>
        (generate_thermostat a).map fun d => (dtc, key.room_index % 256, 0x01, 0x00, 0x00, d)
      | .airconditioner =>
        (generate_airconditioner a).map fun d => (dtc, key.room_index % 256, 0x01, 0x00, 0x00, d)
      | .gasvalve => .ok (dtc, key.room_index % 256, 0x01, 0x00, 0x02, List.replicate 8 0)
      | .elevator => .ok (0x01, 0x00, 0x44, key.room_index % 256, 0x01, List.replicate 8 0)
      | _ => .error "Invalid device generator"
    match fieldsE with
    | .error e => .error e
    | .ok (dd, dr, sd, sr, cmd, data) =>
      let body := [0x30, 0xBC, 0x00, dd, dr, sd, sr, cmd] ++ data
      let packetBytes := PACKET_HEADER ++ body ++ [checksum body] ++ PACKET_SUFFIX
      let et := build_expectation key a
      .ok (packetBytes, et.1, et.2)

/-- One `KocomGateway._sender_loop` iteration, restricted to its
observable effect on the wire and on the command's completion future:
a generation failure resolves the future to `False` without calling
`conn.send_packet`; otherwise the frame is handed to the transport and
the future resolves to the send/confirmation result. -/
structure SendOutcome where
  sent : Option (List Nat)
  resolved : Option Bool
deriving DecidableEq

def sender_step (reg : Registry) (key : DeviceKey) (a : Action)
    (sendOk confirmOk : Bool) : SendOutcome :=
  match generate_command reg key a with
  | .error _ => ⟨Option.none, some false⟩
  | .ok (p, _, _) => if sendOk then ⟨some p, some confirmOk⟩ else ⟨some p, some false⟩

/-! ### RingBuffer (`transport.py`) -/

structure RingBuffer where
  data : List Nat
  size : Nat
  head : Nat
  tail : Nat
  count : Nat
deriving DecidableEq

/-- `RingBuffer.__init__`. -/
def RingBuffer.init (size : Nat) : RingBuffer := ⟨List.replicate size 0, size, 0, 0, 0⟩

/-- `RingBuffer.clear`. -/
def RingBuffer.clear (b : RingBuffer) : RingBuffer := { b with head := 0, tail := 0, count := 0 }

/-- `self._data[s : s + len(xs)] = xs`. -/
def storeRange : List Nat → Nat → List Nat → List Nat
  | l, _, [] => l
  | l, s, x :: t => storeRange (l.set s x) (s + 1) t

/-- `RingBuffer.write`: clears the whole buffer first when the chunk
exceeds the free space, then writes in up to two parts. -/
def RingBuffer.write (b : RingBuffer) (dataIn : List Nat) : RingBuffer × Nat :=
  let n := dataIn.length
  if n = 0 then (b, 0)
  else
    let free := b.size - b.count
    let b1 := if n > free then b.clear else b
    let firstChunk := min n (b1.size - b1.head)
    let d1 := storeRange b1.data b1.head (dataIn.take firstChunk)
    let head1 := (b1.head + firstChunk) % b1.size
    let d2 := if firstChunk < n then storeRange d1 0 (dataIn.drop firstChunk) else d1
    let head2 := if firstChunk < n then (head1 + (n - firstChunk)) % b1.size else head1
    ({ b1 with data := d2, head := head2, count := b1.count + n }, n)

/-- `RingBuffer.peek`. -/
def RingBuffer.peek (b : RingBuffer) (len : Nat) : List Nat :=
  let l := min len b.count
  if l = 0 then []
  else
    let firstChunk := min l (b.size - b.tail)
    let r1 := (b.data.drop b.tail).take firstChunk
    if firstChunk < l then r1 ++ b.data.take (l - firstChunk) else r1

/-- `RingBuffer.advance`. -/
def RingBuffer.advance (b : RingBuffer) (len : Nat) : RingBuffer :=
  let l := min len b.count
  { b with tail := (b.tail + l) % b.size, count := b.count - l }

inductive RBOp where
  | write (chunk : List Nat)
  | peek (n : Nat)
  | advance (n : Nat)
  | clear

def applyOp (b : RingBuffer) : RBOp → RingBuffer
  | .write c => (b.write c).1
  | .peek _ => b
  | .advance n => b.advance n
  | .clear => b.clear

def applyOps (b : RingBuffer) : List RBOp → RingBuffer
  | [] => b
  | op :: t => applyOps (applyOp b op) t

/-! ### AsyncConnection.send_packet (`transport.py`) -/

/-- Observable events of one `send_packet` call. -/
inductive SendEv where
  | reconn
  | wrote (ok : Bool)
  | slept (d : ℚ)
deriving DecidableEq

/-- The environment a `send_packet` call runs against: the outcome of the
i-th `reconnect()` (does a writer/connection come back) and of the i-th
`writer.write`/`drain` (does it raise). -/
structure SendEnv where
  reconnWriter : Nat → Bool
  reconnConn : Nat → Bool
  writeOk : Nat → Bool

/-- `AsyncConnection.send_packet`, one loop iteration per element of
`delays` plus the final attempt: reconnect when the writer is absent,
try the write (an exception is caught and logged), then sleep the
escalating delay and reconnect again when the connection dropped. -/
def send_go (env : SendEnv) : List ℚ → Bool → Bool → Nat → Nat → Bool × List SendEv
  | delays, writer, connected, rc, wc =>
    let writerA := if writer then writer else env.reconnWriter rc
    let connectedA := if writer then connected else env.reconnConn rc
    let rcA := if writer then rc else rc + 1
    let evA : List SendEv := if writer then [] else [.reconn]
    if writerA then
      if env.writeOk wc then (true, evA ++ [.wrote true])
      else
        match delays with
        | [] => (false, evA ++ [.wrote false])
        | d :: rest =>
          let evB := evA ++ [.wrote false, .slept d]
          let writerB := if connectedA then writerA else env.reconnWriter rcA
          let connectedB := if connectedA then connectedA else env.reconnConn rcA
          let rcB := if connectedA then rcA else rcA + 1
          let evC : List SendEv := if connectedA then [] else [.reconn]
          let r := send_go env rest writerB connectedB rcB (wc + 1)
          (r.1, evB ++ evC ++ r.2)
    else
      match delays with
      | [] => (false, evA)
      | d :: rest =>
        let evB := evA ++ [.slept d]
        let writerB := if connectedA then writerA else env.reconnWriter rcA
        let connectedB := if connectedA then connectedA else env.reconnConn rcA
        let rcB := if connectedA then rcA else rcA + 1
        let evC : List SendEv := if connectedA then [] else [.reconn]
        let r := send_go env rest writerB connectedB rcB wc
        (r.1, evB ++ evC ++ r.2)

/-- The delay table `[0.5, 1.0, 2.0]` of `send_packet`. -/
def SEND_DELAYS : List ℚ := [1/2, 1, 2]

/-- `AsyncConnection.send_packet` entry point. -/
def send_packet (env : SendEnv) (writer connected : Bool) : Bool × List SendEv :=
  send_go env SEND_DELAYS writer connected 0 0

/-! ### Gateway shutdown (`gateway.py`) -/

/-- The gateway state relevant to `async_stop`: the two task flags, the
connection, and the completion futures of commands still queued in
`_tx_queue` and of commands awaiting confirmation. -/
structure GwState where
  readerCancelled : Bool
  senderCancelled : Bool
  connected : Bool
  queuedFutures : List (Option Bool)
  pendingFutures : List (Option Bool)
deriving DecidableEq

/-- `KocomGateway.async_stop`: cancels the reader task, cancels the
sender task and closes the connection.  Both loops' `except
CancelledError` handlers merely log and re-raise, and
`AsyncConnection.close` only tears down the socket, so no command
future is touched. -/
def async_stop (g : GwState) : GwState :=
  { g with readerCancelled := true, senderCancelled := true, connected := false }

/-- The cancellation handler inside `KocomGateway.async_send_action`:
when the caller's own await is cancelled, an unresolved future is set to
`False`. -/
def send_action_cancelled (fut : Option Bool) : Option Bool :=
  match fut with
  | Option.none => some false
  | some r => some r

/-! ### Derived helpers and concrete demonstration inputs -/

/-- Feeding a list of decoded states into `EntityRegistry.upsert` with
`allow_insert=True`, collecting the `(isNew, changed)` flag pairs. -/
def upsertAll : Registry → List DeviceState → List (Bool × Bool) × Registry
  | reg, [] => ([], reg)
  | reg, d :: t =>
    let r := upsert reg d true
    let rest := upsertAll r.2 t
    (r.1 :: rest.1, rest.2)

def keyList (l : List DeviceState) : List DeviceKey := l.map (·.key)

/-- Number of `writer.write` attempts in a `send_packet` trace. -/
def wroteCount (evs : List SendEv) : Nat :=
  (evs.filter fun e => match e with | .wrote _ => true | _ => false).length

/-- The sleep delays of a `send_packet` trace, in order. -/
def sleepsOf (evs : List SendEv) : List ℚ :=
  evs.filterMap fun e => match e with | .slept d => some d | _ => Option.none

/-- A valid ventilation status frame (peer `0x48`/room 0, command `0x00`)
whose payload byte 1 carries the discoverable preset code `0x01`. -/
def ventDemoFrame : List Nat :=
  [0xAA, 0x55, 0x30, 0xBC, 0x00, 0x48, 0x00, 0x01, 0x00, 0x00,
   0x11, 0x01, 0x40, 0x00, 0x00, 0x00, 0x00, 0x00, 135, 0x0D, 0x0D]

/-- A valid thermostat status frame (peer `0x36`/room 1, command `0x00`)
whose target-temperature payload byte is the sentinel `0xFF`. -/
def thermoDemoFrame : List Nat :=
  [0xAA, 0x55, 0x30, 0xBC, 0x00, 0x01, 0x00, 0x36, 0x01, 0x00,
   0x11, 0x00, 0xFF, 0x00, 0x18, 0x00, 0x00, 0x00, 76, 0x0D, 0x0D]

/-- A valid light status frame (peer `0x0E`/room 1, command `0x00`) with
channel 0 reporting ON and the other channels OFF. -/
def lightDemoFrame : List Nat :=
  [0xAA, 0x55, 0x30, 0xBC, 0x00, 0x01, 0x00, 0x0E, 0x01, 0x00,
   0xFF, 0x00, 0x00, 0x00, 0x00, 0x00, 0x00, 0x00, 251, 0x0D, 0x0D]

/-- The frame `generate_command` produces for turning on light 0 of
room 1 against an empty registry. -/
def lightDemoPacket : List Nat :=
  [0xAA, 0x55, 0x30, 0xBC, 0x00, 0x0E, 0x01, 0x01, 0x00, 0x00,
   0xFF, 0x00, 0x00, 0x00, 0x00, 0x00, 0x00, 0x00, 251, 0x0D, 0x0D]

/-- A send environment in which every reconnect restores the link, the
first write raises and the second write succeeds. -/
def sendDemoEnv : SendEnv := ⟨fun _ => true, fun _ => true, fun i => decide (i = 1)⟩

/-- A gateway state with one command still queued and one awaiting
confirmation, both unresolved. -/
def gwDemo : GwState := ⟨false, false, true, [Option.none], [Option.none]⟩

/-- The retry-policy properties of one `send_packet` run against a delay
table: a bounded number of write attempts, success exactly on a
successful write which ends the trace, sleeps forming a prefix of the
delay table, and a reconnect as the first event when the writer was
absent. -/
def SendSpec (delays : List ℚ) (w : Bool) (r : Bool × List SendEv) : Prop :=
  wroteCount r.2 ≤ delays.length + 1 ∧
  (r.1 = true ↔ SendEv.wrote true ∈ r.2) ∧
  (r.1 = true → ∃ l, r.2 = l ++ [SendEv.wrote true] ∧ SendEv.wrote true ∉ l) ∧
  (∃ k, sleepsOf r.2 = delays.take k) ∧
  (w = false → ∃ tl, r.2 = SendEv.reconn :: tl)

/-- A ring buffer after writing `[1, 2, 3]` and consuming one byte:
size 4, two bytes buffered. -/
def rbDemo : RingBuffer := ((RingBuffer.init 4).write [1, 2, 3]).1.advance 1

/-! ## Lemmas and claim theorems -/

lemma recvGo_some_valid :
    ∀ fuel chunks buf errs f, recvGo fuel chunks buf errs = some f →
      f.length = PACKET_LEN ∧ checksumOk f = true := by
  intro fuel
  induction fuel with
  | zero => intro chunks buf errs f h; simp [recvGo] at h
  | succ n ih =>
    intro chunks buf errs f h
    rw [recvGo.eq_def] at h
    simp only [] at h
    split at h
    · split at h
      · exact absurd h (by simp)
      · split at h
        · exact absurd h (by simp)
        · exact ih _ _ _ _ h
    · rcases hfind : findHeader buf with _ | start
      · rw [hfind] at h
        exact ih _ _ _ _ h
      · rw [hfind] at h
        simp only at h
        split at h
        · exact ih _ _ _ _ h
        · rename_i hblen
          split at h
          · split at h
            · exact absurd h (by simp)
            · exact ih _ _ _ _ h
          · split at h
            · split at h
              · exact absurd h (by simp)
              · exact ih _ _ _ _ h
            · rename_i hfoot hsum
              rw [Option.some_inj] at h
              subst h
              constructor
              · exact List.length_take_of_le (Nat.le_of_not_lt hblen)
              · exact not_not.mp hsum

lemma sum_set_add (l : List Nat) : ∀ (n : Nat) (a : Nat), n < l.length →
    (l.set n a).sum + l.getD n 0 = l.sum + a := by
  induction l with
  | nil => intro n a h; simp at h
  | cons x t ih =>
    intro n a h
    cases n with
    | zero => simp [List.set, List.getD]; omega
    | succ m =>
      simp only [List.set, List.sum_cons, List.getD_cons_succ]
      have := ih m a (by simpa using h)
      omega

lemma drop_set_comm (v : Nat) :
    ∀ (l : List Nat) (j i : Nat), j ≤ i → (l.set i v).drop j = (l.drop j).set (i - j) v := by
  intro l
  induction l with
  | nil => intro j i _; simp
  | cons x t ih =>
    intro j i hji
    cases j with
    | zero => simp
    | succ m =>
      cases i with
      | zero => omega
      | succ k =>
        simp only [List.set, List.drop_succ_cons, Nat.succ_sub_succ]
        exact ih m k (Nat.le_of_succ_le_succ hji)

lemma take_set_comm (v : Nat) :
    ∀ (l : List Nat) (m i : Nat), i < m → (l.set i v).take m = (l.take m).set i v := by
  intro l
  induction l with
  | nil => intro m i _; simp
  | cons x t ih =>
    intro m i him
    cases i with
    | zero =>
      cases m with
      | zero => omega
      | succ k => simp
    | succ j =>
      cases m with
      | zero => omega
      | succ k =>
        simp only [List.set, List.take_succ_cons]
        rw [ih k j (Nat.lt_of_succ_lt_succ him)]

lemma getD_set_ne (l : List Nat) (i j v : Nat) (h : i ≠ j) :
    (l.set i v).getD j 0 = l.getD j 0 := by
  rw [List.getD_eq_getElem?_getD, List.getD_eq_getElem?_getD, List.getElem?_set_ne h]

lemma getD_mem (l : List Nat) (i : Nat) (h : i < l.length) : l.getD i 0 ∈ l := by
  rw [List.getD_eq_getElem?_getD, List.getElem?_eq_getElem h]
  exact List.getElem_mem _

lemma getD_drop (l : List Nat) : ∀ a j, (l.drop a).getD j 0 = l.getD (a + j) 0 := by
  induction l with
  | nil => intro a j; simp
  | cons x t ih =>
    intro a j
    cases a with
    | zero => simp
    | succ m =>
      simp only [List.drop_succ_cons, Nat.succ_add, List.getD_cons_succ]
      exact ih m j

lemma getD_take (l : List Nat) : ∀ n j, j < n → (l.take n).getD j 0 = l.getD j 0 := by
  induction l with
  | nil => intro n j _; simp
  | cons x t ih =>
    intro n j hj
    cases n with
    | zero => omega
    | succ m =>
      cases j with
      | zero => simp
      | succ k =>
        simp only [List.take_succ_cons, List.getD_cons_succ]
        exact ih m k (Nat.lt_of_succ_lt_succ hj)

/-- Claim C1: every frame returned by the transport receive path
(`AsyncConnection.recv_packet`) is 21 bytes long with byte 18 equal to
`sum(bytes[2:18]) mod 256`; and for any frame satisfying that invariant,
replacing any single byte at an index in `[2, 18)` with a different byte
value makes the receiver's checksum validation fail. -/
theorem recv_checksum_invariant :
    (∀ fuel chunks buf errs f, recvGo fuel chunks buf errs = some f →
        f.length = 21 ∧ f.getD 18 0 = checksum ((f.drop 2).take 16)) ∧
    (∀ f i v, f.length = 21 → (∀ b ∈ f, b < 256) → checksumOk f = true →
        2 ≤ i → i < 18 → v < 256 → v ≠ f.getD i 0 →
        checksumOk (f.set i v) = false) := by
  constructor
  · intro fuel chunks buf errs f h
    obtain ⟨h1, h2⟩ := recvGo_some_valid fuel chunks buf errs f h
    exact ⟨h1, of_decide_eq_true h2⟩
  · intro f i v hlen hwf hok h2i hi18 hv hne
    have hold : f.getD i 0 < 256 := hwf _ (getD_mem f i (by omega))
    have hok' : f.getD 18 0 = checksum ((f.drop 2).take 16) := of_decide_eq_true hok
    rw [checksumOk, decide_eq_false_iff_not]
    intro hbad
    -- byte 18 is untouched by the mutation
    have h18 : (f.set i v).getD 18 0 = f.getD 18 0 := getD_set_ne f i 18 v (by omega)
    -- the mutated slice is the original slice with entry `i - 2` replaced
    have hslice : ((f.set i v).drop 2).take 16 = ((f.drop 2).take 16).set (i - 2) v := by
      rw [drop_set_comm v f 2 i h2i, take_set_comm v (f.drop 2) 16 (i - 2) (by omega)]
    set s := (f.drop 2).take 16 with hs
    have hslen : s.length = 16 := by
      rw [hs, List.length_take, List.length_drop, hlen]
      omega
    have hj : i - 2 < s.length := by omega
    have hsj : s.getD (i - 2) 0 = f.getD i 0 := by
      rw [hs, getD_take _ _ _ (by omega), getD_drop]
      congr 1
      omega
    have hsum : (s.set (i - 2) v).sum + s.getD (i - 2) 0 = s.sum + v :=
      sum_set_add s (i - 2) v hj
    rw [h18, hslice, hok'] at hbad
    -- both checks passing forces `v ≡ old [MOD 256]`, hence `v = old`
    apply hne
    rw [← hsj]
    have hgd : s.getD (i - 2) 0 < 256 := by rw [hsj]; exact hold
    simp only [checksum] at hbad
    omega


theorem recv_checksum_invariant_witness :
    (lightDemoFrame.length = 21 ∧
      lightDemoFrame.getD 18 0 = checksum ((lightDemoFrame.drop 2).take 16)) ∧
    checksumOk (lightDemoFrame.set 10 0) = false := by
  constructor
  · exact recv_checksum_invariant.1 1 [] lightDemoFrame 0 lightDemoFrame (by decide)
  · exact recv_checksum_invariant.2 lightDemoFrame 10 0 (by decide) (by decide) (by decide)
      (by decide) (by decide) (by decide) (by decide)

/-- Claim C6: the confirmation "predicate" `build_expectation` returns for
the gas-valve `turn_on` action is the literal Python `True`, not a
callable: applying it to a `DeviceState` raises `TypeError` (which
`_notify_pendings` swallows, so the waiter never resolves before its
timeout), contradicting the totality the specification requires. -/
theorem gasvalve_turn_on_predicate_not_callable :
    (build_expectation ⟨.gasvalve, 0, 0, .none⟩ Action.turn_on).1 = ExpectPred.pyTrue := rfl

theorem async_stop_counterexample :
    async_stop gwDemo =
      ⟨true, true, false, [Option.none], [Option.none]⟩ := by decide

/-- Claim C10 (amended): stopping the gateway cancels both tasks and
closes the connection, but resolves no queued or awaiting command
future; a caller of `async_send_action` is released only when its own
await is cancelled, in which case the unresolved future is set to
failure. -/
theorem async_stop_cancels_without_resolving (g : GwState) :
    (async_stop g).readerCancelled = true ∧ (async_stop g).senderCancelled = true ∧
    (async_stop g).connected = false ∧
    (async_stop g).queuedFutures = g.queuedFutures ∧
    (async_stop g).pendingFutures = g.pendingFutures ∧
    send_action_cancelled Option.none = some false ∧
    (∀ r, send_action_cancelled (some r) = some r) :=
  ⟨rfl, rfl, rfl, rfl, rfl, rfl, fun _ => rfl⟩

theorem unsupported_action_counterexample :
    (sender_step Registry.empty ⟨.thermostat, 1, 0, .none⟩ (Action.other "bogus")
      true false).sent ≠ Option.none := by decide

/-- Claim C7 (amended): a command for a device type without a generator
fails synchronously — `generate_command` raises, the sender loop
resolves the future to failure and `conn.send_packet` is never called;
but an unsupported action for a supported device type is not rejected:
a frame with a default payload is generated and handed to the
transport, and the command can only fail via its confirmation timeout. -/
theorem invalid_command_no_send (reg : Registry) (key : DeviceKey) (a : Action)
    (sendOk confirmOk : Bool) :
    ((key.device_type = .motion ∨ key.device_type = .airquality ∨
      key.device_type = .lightcutoff ∨ key.device_type = .unknown) →
      (generate_command reg key a).isOk = false ∧
      sender_step reg key a sendOk confirmOk = ⟨Option.none, some false⟩) ∧
    ((key.device_type = .light ∨ key.device_type = .outlet ∨
      key.device_type = .ventilation ∨ key.device_type = .thermostat ∨
      key.device_type = .airconditioner ∨ key.device_type = .gasvalve ∨
      key.device_type = .elevator) →
      ∀ s, (generate_command reg key (Action.other s)).isOk = true) := by
  rcases key with ⟨dt, room, idx, sub⟩
  cases dt with
  | light => exact ⟨fun h => by simp at h, fun _ _ => rfl⟩
  | outlet => exact ⟨fun h => by simp at h, fun _ _ => rfl⟩
  | thermostat => exact ⟨fun h => by simp at h, fun _ _ => rfl⟩
  | airconditioner => exact ⟨fun h => by simp at h, fun _ _ => rfl⟩
  | ventilation => exact ⟨fun h => by simp at h, fun _ _ => rfl⟩
  | gasvalve => exact ⟨fun h => by simp at h, fun _ _ => rfl⟩
  | elevator => exact ⟨fun h => by simp at h, fun _ _ => rfl⟩
  | motion => exact ⟨fun _ => ⟨rfl, rfl⟩, fun h => by simp at h⟩
  | airquality => exact ⟨fun _ => ⟨rfl, rfl⟩, fun h => by simp at h⟩
  | lightcutoff => exact ⟨fun _ => ⟨rfl, rfl⟩, fun h => by simp at h⟩
  | unknown => exact ⟨fun _ => ⟨rfl, rfl⟩, fun h => by simp at h⟩

theorem invalid_command_no_send_witness :
    ((generate_command Registry.empty ⟨.motion, 0, 0, .none⟩ Action.turn_on).isOk = false ∧
      sender_step Registry.empty ⟨.motion, 0, 0, .none⟩ Action.turn_on true true =
        ⟨Option.none, some false⟩) ∧
    (generate_command Registry.empty ⟨.light, 0, 0, .none⟩ (Action.other "x")).isOk = true := by
  constructor
  · exact (invalid_command_no_send Registry.empty ⟨.motion, 0, 0, .none⟩ Action.turn_on
      true true).1 (Or.inl rfl)
  · exact (invalid_command_no_send Registry.empty ⟨.light, 0, 0, .none⟩ (Action.other "x")
      true true).2 (Or.inl rfl) "x"

theorem decode_twice_differs_counterexample :
    (dispatch Storage.empty ventDemoFrame).1 ≠
      (dispatch (dispatch Storage.empty ventDemoFrame).2 ventDemoFrame).1 := by decide

/-- Claim C5: decoding a thermostat status frame (command `0x00`) whose
target-temperature payload byte is `0xFF` or above 50 yields a climate
`DeviceState` whose `target_temp` is the calibration store's last
known-good value when one exists for that device id, and the safe
default `0.0` otherwise — never the raw sentinel. -/
theorem thermostat_sentinel_filtered (f : List Nat) (st : Storage)
    (hok : checksum ((f.drop 2).take 16) = f.getD 18 0)
    (hdt : dev_type f = .thermostat) (hcmd : frame_command f = 0)
    (hbad : payload f 2 = 0xFF ∨ 50 < payload f 2) :
    ∃ d rest, (dispatch st f).1 = d :: rest ∧ d.platform = .climate ∧
      targetField d.state =
        some ((alookup st.qvals
          (uniqueId ⟨DeviceType.thermostat, dev_room f, 0, SubType.none⟩ ++
            "_thermo_target")).getD 0) := by
  have htarget :
      (if payload f 2 = 0xFF ∨ ¬ ((0 : ℚ) ≤ (payload f 2 : ℚ) ∧ (payload f 2 : ℚ) ≤ 50)
       then (0 : ℚ) else (payload f 2 : ℚ)) = 0 := by
    rcases hbad with h | h
    · rw [if_pos (Or.inl h)]
    · refine if_pos (Or.inr ?_)
      rintro ⟨-, hle⟩
      rw [show (50 : ℚ) = ((50 : Nat) : ℚ) by norm_num, Nat.cast_le] at hle
      omega
  simp only [dispatch]
  rw [if_neg (not_not_intro hok), hdt]
  simp only [handle_thermostat, hcmd, if_pos, if_true, reduceIte, hdt]
  refine ⟨_, _, rfl, rfl, ?_⟩
  simp only [targetField, htarget]

theorem thermostat_sentinel_filtered_witness :
    ∃ d rest, (dispatch Storage.empty thermoDemoFrame).1 = d :: rest ∧
      d.platform = .climate ∧
      targetField d.state =
        some ((alookup Storage.empty.qvals
          (uniqueId ⟨DeviceType.thermostat, dev_room thermoDemoFrame, 0, SubType.none⟩ ++
            "_thermo_target")).getD 0) :=
  thermostat_sentinel_filtered thermoDemoFrame Storage.empty (by decide) (by decide)
    (by decide) (Or.inl (by decide))

/-- Claim C4: a light/outlet status frame decodes to one `DeviceState`
per channel, flagged registration-eligible exactly when the channel's
payload byte is `0xFF`; for a never-seen key, an OFF observation
reaching `on_device_state` is dropped (registry unchanged, upsert
returns `(false, false)`), while an ON observation is inserted. -/
theorem switch_auto_registration (f : List Nat) (st : Storage) (reg : Registry)
    (hok : checksum ((f.drop 2).take 16) = f.getD 18 0)
    (hdt : (dev_type f = .light ∧ dev_room f ≠ 0xFF) ∨ dev_type f = .outlet)
    (hcmd : frame_command f = 0) :
    (dispatch st f).1.length = 8 ∧
    (∀ i d, (dispatch st f).1.get? i = some d →
      d.isRegister = some (decide (payload f i = 0xFF)) ∧
      d.state = SVal.b (decide (payload f i = 0xFF)) ∧
      d.key = ⟨dev_type f, dev_room f, i, SubType.none⟩) ∧
    (∀ d : DeviceState, regGet reg d.key = Option.none →
      (d.key.device_type = DeviceType.light ∨ d.key.device_type = DeviceType.outlet) →
      ((d.isRegister = some false →
         on_device_state Option.none reg d = ((false, false), reg)) ∧
       (d.isRegister = some true →
         regGet (on_device_state Option.none reg d).2 d.key = some d))) := by
  have hswitch : (dispatch st f).1 =
      (handle_switch f).map (fun d => { d with packet := f }) := by
    simp only [dispatch]
    rw [if_neg (not_not_intro hok)]
    rcases hdt with ⟨hl, hr⟩ | ho
    · rw [hl]
      simp only [if_neg hr]
    · rw [ho]
  refine ⟨?_, ?_, ?_⟩
  · rw [hswitch]
    simp [handle_switch, hcmd]
  · intro i d hget
    rw [hswitch] at hget
    simp only [handle_switch, hcmd, if_true, reduceIte, List.map_map] at hget
    rw [List.get?_eq_getElem?, List.getElem?_map] at hget
    by_cases hi : i < 8
    · rw [List.getElem?_range hi] at hget
      simp only [Option.map_some', Option.some.injEq] at hget
      subst hget
      exact ⟨rfl, rfl, rfl⟩
    · rw [List.getElem?_eq_none (by simpa using Nat.le_of_not_lt hi)] at hget
      simp at hget
  · intro d hnone hdt2
    constructor
    · intro hoff
      simp only [on_device_state, if_pos hdt2, hoff, Option.getD_some, upsert]
      simp only [regGet] at hnone
      rw [hnone]
      simp
    · intro hon
      simp only [on_device_state, if_pos hdt2, hon, Option.getD_some, upsert]
      simp only [regGet] at hnone
      rw [hnone]
      simp [regGet, alookup, aset, List.find?]

theorem switch_auto_registration_witness :
    (dispatch Storage.empty lightDemoFrame).1.length = 8 :=
  (switch_auto_registration lightDemoFrame Storage.empty Registry.empty (by decide)
    (Or.inl ⟨by decide, by decide⟩) (by decide)).1

lemma list8_exists (d : List Nat) (h : d.length = 8) :
    ∃ a0 a1 a2 a3 a4 a5 a6 a7, d = [a0, a1, a2, a3, a4, a5, a6, a7] := by
  rcases d with - | ⟨a0, d⟩; · simp at h
  rcases d with - | ⟨a1, d⟩; · simp at h
  rcases d with - | ⟨a2, d⟩; · simp at h
  rcases d with - | ⟨a3, d⟩; · simp at h
  rcases d with - | ⟨a4, d⟩; · simp at h
  rcases d with - | ⟨a5, d⟩; · simp at h
  rcases d with - | ⟨a6, d⟩; · simp at h
  rcases d with - | ⟨a7, d⟩; · simp at h
  rcases d with - | ⟨a8, d⟩
  · exact ⟨a0, a1, a2, a3, a4, a5, a6, a7, rfl⟩
  · simp at h

lemma generate_switch_length (reg : Registry) (key : DeviceKey) (a : Action) :
    (generate_switch reg key a).length = 8 := by
  simp [generate_switch]

lemma generate_ventilation_length (a : Action) (d : List Nat)
    (h : generate_ventilation a = .ok d) : d.length = 8 := by
  cases a <;> simp only [generate_ventilation] at h <;> try (injection h with h; subst h; rfl)
  · rename_i pm
    rcases hr : rlookup VENTILATION_PRESET_MAP pm with - | code <;> rw [hr] at h
    · exact absurd h (by simp)
    · injection h with h; subst h; rfl
  · rename_i sp
    split at h
    · injection h with h; subst h; rfl
    · exact absurd h (by simp)

lemma generate_thermostat_length (a : Action) (d : List Nat)
    (h : generate_thermostat a = .ok d) : d.length = 8 := by
  cases a <;> simp only [generate_thermostat] at h <;>
    try (injection h with h; subst h; rfl)
  case set_temperature tt =>
    rcases hb : byteOf (pyInt tt) with v | e <;> rw [hb] at h
    · exact absurd h (by simp)
    · injection h with h; subst h; rfl

lemma generate_airconditioner_length (a : Action) (d : List Nat)
    (h : generate_airconditioner a = .ok d) : d.length = 8 := by
  cases a <;> simp only [generate_airconditioner] at h <;>
    try (injection h with h; subst h; rfl)
  case set_hvac hm =>
    split at h
    · injection h with h; subst h; rfl
    · rcases hr : rlookup AIRCONDITIONER_HVAC_MAP hm with - | code <;> rw [hr] at h
      · exact absurd h (by simp)
      · injection h with h; subst h; rfl
  case set_fan fm =>
    rcases hr : rlookup AIRCONDITIONER_FAN_MAP fm with - | code <;> rw [hr] at h
    · exact absurd h (by simp)
    · injection h with h; subst h; rfl
  case set_temperature tt =>
    rcases hb : byteOf (pyInt tt) with v | e <;> rw [hb] at h
    · exact absurd h (by simp)
    · injection h with h; subst h; rfl

lemma recvGo_accepts (p : List Nat) (hlen : p.length = 21)
    (hpre : p.take 2 = PACKET_HEADER) (hsuf : p.drop 19 = PACKET_SUFFIX)
    (hsum : checksumOk p = true) : recvGo 1 [] p 0 = some p := by
  rcases p with - | ⟨b0, p⟩; · simp at hlen
  rcases p with - | ⟨b1, p⟩; · simp at hlen
  obtain ⟨hb0, hb1⟩ : b0 = 0xAA ∧ b1 = 0x55 := by
    simpa [PACKET_HEADER] using hpre
  subst hb0; subst hb1
  rw [recvGo.eq_def]
  simp only []
  have hL : ¬ ((0xAA :: 0x55 :: p).length < PACKET_LEN) := by
    rw [hlen]; simp [PACKET_LEN]
  rw [if_neg hL]
  have hf : findHeader (0xAA :: 0x55 :: p) = some 0 := by simp [findHeader]
  rw [hf]
  simp only [List.drop_zero]
  rw [if_neg hL]
  have htake : (0xAA :: 0x55 :: p).take PACKET_LEN = 0xAA :: 0x55 :: p := by
    rw [PACKET_LEN, ← hlen]
    exact List.take_length _
  rw [htake]
  have hfoot : footOk (0xAA :: 0x55 :: p) = true := by
    rw [footOk, decide_eq_true_eq, hlen]
    exact hsuf
  rw [hfoot, hsum]
  simp

lemma packet_props (dd dr sd sr cmd : Nat) (data : List Nat) (hlen : data.length = 8)
    (p : List Nat)
    (hp : p = PACKET_HEADER ++ ([0x30, 0xBC, 0x00, dd, dr, sd, sr, cmd] ++ data) ++
      [checksum ([0x30, 0xBC, 0x00, dd, dr, sd, sr, cmd] ++ data)] ++ PACKET_SUFFIX) :
    p.length = 21 ∧ p.take 2 = PACKET_HEADER ∧ p.drop 19 = PACKET_SUFFIX ∧
    p.getD 2 0 = 0x30 ∧ p.getD 3 0 = 0xBC ∧ p.getD 5 0 = dd ∧ p.getD 7 0 = sd ∧
    p.getD 18 0 = checksum ((p.drop 2).take 16) ∧ recvGo 1 [] p 0 = some p := by
  obtain ⟨a0, a1, a2, a3, a4, a5, a6, a7, rfl⟩ := list8_exists data hlen
  subst hp
  have hck : (PACKET_HEADER ++
        ([0x30, 0xBC, 0x00, dd, dr, sd, sr, cmd] ++ [a0, a1, a2, a3, a4, a5, a6, a7]) ++
        [checksum ([0x30, 0xBC, 0x00, dd, dr, sd, sr, cmd] ++ [a0, a1, a2, a3, a4, a5, a6, a7])] ++
        PACKET_SUFFIX).getD 18 0 =
      checksum (((PACKET_HEADER ++
        ([0x30, 0xBC, 0x00, dd, dr, sd, sr, cmd] ++ [a0, a1, a2, a3, a4, a5, a6, a7]) ++
        [checksum ([0x30, 0xBC, 0x00, dd, dr, sd, sr, cmd] ++ [a0, a1, a2, a3, a4, a5, a6, a7])] ++
        PACKET_SUFFIX).drop 2).take 16) := by
    show checksum _ = checksum _
    rfl
  refine ⟨rfl, rfl, rfl, rfl, rfl, rfl, rfl, hck, ?_⟩
  exact recvGo_accepts _ rfl rfl rfl (by rw [checksumOk, decide_eq_true_eq]; exact hck)

/-- Claim C2: every packet `KocomController.generate_command` produces
for a supported device type is exactly 21 bytes, starts with `AA 55`,
ends with `0D 0D`, carries the protocol type bytes `30 BC` at offsets
2-3, has the hub address `0x01` as one of the two address high bytes,
satisfies `bytes[18] = sum(bytes[2:18]) mod 256`, and is accepted by the
transport receiver's header, suffix and checksum checks. -/
theorem generate_command_wellformed (reg : Registry) (key : DeviceKey) (a : Action)
    (p : List Nat) (e : ExpectPred) (t : ℚ)
    (h : generate_command reg key a = .ok (p, e, t)) :
    p.length = 21 ∧ p.take 2 = PACKET_HEADER ∧ p.drop 19 = PACKET_SUFFIX ∧
    p.getD 2 0 = 0x30 ∧ p.getD 3 0 = 0xBC ∧
    (p.getD 5 0 = 0x01 ∨ p.getD 7 0 = 0x01) ∧
    p.getD 18 0 = checksum ((p.drop 2).take 16) ∧
    recvGo 1 [] p 0 = some p := by
  rcases key with ⟨dt, room, idx, sub⟩
  cases dt <;> simp only [generate_command] at h
  case light =>
    rcases hrl : rlookup DEVICE_TYPE_MAP DeviceType.light with - | dtc <;> rw [hrl] at h
    · exact Except.noConfusion h
    · injection h with h
      have hpk := congrArg Prod.fst h
      have hprops := packet_props _ _ _ _ _ _
        (generate_switch_length reg ⟨.light, room, idx, sub⟩ a) p hpk.symm
      exact ⟨hprops.1, hprops.2.1, hprops.2.2.1, hprops.2.2.2.1, hprops.2.2.2.2.1,
        Or.inr hprops.2.2.2.2.2.2.1, hprops.2.2.2.2.2.2.2.1, hprops.2.2.2.2.2.2.2.2⟩
  case outlet =>
    rcases hrl : rlookup DEVICE_TYPE_MAP DeviceType.outlet with - | dtc <;> rw [hrl] at h
    · exact Except.noConfusion h
    · injection h with h
      have hpk := congrArg Prod.fst h
      have hprops := packet_props _ _ _ _ _ _
        (generate_switch_length reg ⟨.outlet, room, idx, sub⟩ a) p hpk.symm
      exact ⟨hprops.1, hprops.2.1, hprops.2.2.1, hprops.2.2.2.1, hprops.2.2.2.2.1,
        Or.inr hprops.2.2.2.2.2.2.1, hprops.2.2.2.2.2.2.2.1, hprops.2.2.2.2.2.2.2.2⟩
  case ventilation =>
    rcases hv : generate_ventilation a with ev | d <;> rw [hv] at h <;>
      rcases hrl : rlookup DEVICE_TYPE_MAP DeviceType.ventilation with - | dtc <;>
        rw [hrl] at h
    · exact Except.noConfusion h
    · exact Except.noConfusion h
    · exact Except.noConfusion h
    · injection h with h
      have hpk := congrArg Prod.fst h
      have hprops := packet_props _ _ _ _ _ _
        (generate_ventilation_length a d hv) p hpk.symm
      exact ⟨hprops.1, hprops.2.1, hprops.2.2.1, hprops.2.2.2.1, hprops.2.2.2.2.1,
        Or.inr hprops.2.2.2.2.2.2.1, hprops.2.2.2.2.2.2.2.1, hprops.2.2.2.2.2.2.2.2⟩
  case thermostat =>
    rcases hv : generate_thermostat a with ev | d <;> rw [hv] at h <;>
      rcases hrl : rlookup DEVICE_TYPE_MAP DeviceType.thermostat with - | dtc <;>
        rw [hrl] at h
    · exact Except.noConfusion h
    · exact Except.noConfusion h
    · exact Except.noConfusion h
    · injection h with h
      have hpk := congrArg Prod.fst h
      have hprops := packet_props _ _ _ _ _ _
        (generate_thermostat_length a d hv) p hpk.symm
      exact ⟨hprops.1, hprops.2.1, hprops.2.2.1, hprops.2.2.2.1, hprops.2.2.2.2.1,
        Or.inr hprops.2.2.2.2.2.2.1, hprops.2.2.2.2.2.2.2.1, hprops.2.2.2.2.2.2.2.2⟩
  case airconditioner =>
    rcases hv : generate_airconditioner a with ev | d <;> rw [hv] at h <;>
      rcases hrl : rlookup DEVICE_TYPE_MAP DeviceType.airconditioner with - | dtc <;>
        rw [hrl] at h
    · exact Except.noConfusion h
    · exact Except.noConfusion h
    · exact Except.noConfusion h
    · injection h with h
      have hpk := congrArg Prod.fst h
      have hprops := packet_props _ _ _ _ _ _
        (generate_airconditioner_length a d hv) p hpk.symm
      exact ⟨hprops.1, hprops.2.1, hprops.2.2.1, hprops.2.2.2.1, hprops.2.2.2.2.1,
        Or.inr hprops.2.2.2.2.2.2.1, hprops.2.2.2.2.2.2.2.1, hprops.2.2.2.2.2.2.2.2⟩
  case gasvalve =>
    rcases hrl : rlookup DEVICE_TYPE_MAP DeviceType.gasvalve with - | dtc <;> rw [hrl] at h
    · exact Except.noConfusion h
    · injection h with h
      have hpk := congrArg Prod.fst h
      have hprops := packet_props _ _ _ _ _ _ (List.length_replicate 8 0) p hpk.symm
      exact ⟨hprops.1, hprops.2.1, hprops.2.2.1, hprops.2.2.2.1, hprops.2.2.2.2.1,
        Or.inr hprops.2.2.2.2.2.2.1, hprops.2.2.2.2.2.2.2.1, hprops.2.2.2.2.2.2.2.2⟩
  case elevator =>
    rcases hrl : rlookup DEVICE_TYPE_MAP DeviceType.elevator with - | dtc <;> rw [hrl] at h
    · exact Except.noConfusion h
    · injection h with h
      have hpk := congrArg Prod.fst h
      have hprops := packet_props _ _ _ _ _ _ (List.length_replicate 8 0) p hpk.symm
      exact ⟨hprops.1, hprops.2.1, hprops.2.2.1, hprops.2.2.2.1, hprops.2.2.2.2.1,
        Or.inl hprops.2.2.2.2.2.1, hprops.2.2.2.2.2.2.2.1, hprops.2.2.2.2.2.2.2.2⟩
  case motion =>
    rcases hrl : rlookup DEVICE_TYPE_MAP DeviceType.motion with - | dtc <;> rw [hrl] at h <;>
      exact Except.noConfusion h
  case airquality =>
    rcases hrl : rlookup DEVICE_TYPE_MAP DeviceType.airquality with - | dtc <;>
      rw [hrl] at h <;> exact Except.noConfusion h
  case lightcutoff =>
    rcases hrl : rlookup DEVICE_TYPE_MAP DeviceType.lightcutoff with - | dtc <;>
      rw [hrl] at h <;> exact Except.noConfusion h
  case unknown =>
    rcases hrl : rlookup DEVICE_TYPE_MAP DeviceType.unknown with - | dtc <;>
      rw [hrl] at h <;> exact Except.noConfusion h

theorem generate_command_wellformed_witness :
    lightDemoPacket.length = 21 ∧ recvGo 1 [] lightDemoPacket 0 = some lightDemoPacket := by
  have h := generate_command_wellformed Registry.empty ⟨.light, 1, 0, .none⟩ Action.turn_on
    lightDemoPacket (build_expectation ⟨.light, 1, 0, .none⟩ Action.turn_on).1
    (build_expectation ⟨.light, 1, 0, .none⟩ Action.turn_on).2 rfl
  exact ⟨h.1, h.2.2.2.2.2.2.2⟩

lemma wroteCount_append (a b : List SendEv) :
    wroteCount (a ++ b) = wroteCount a + wroteCount b := by
  simp [wroteCount, List.filter_append]

lemma sleepsOf_append (a b : List SendEv) :
    sleepsOf (a ++ b) = sleepsOf a ++ sleepsOf b := by
  simp [sleepsOf]

lemma sendspec_done (delays : List ℚ) (w : Bool) (pre : List SendEv) (res : Bool)
    (hw : wroteCount pre ≤ delays.length + 1)
    (hmem : res = true ↔ SendEv.wrote true ∈ pre)
    (hlast : res = true → ∃ l, pre = l ++ [SendEv.wrote true] ∧ SendEv.wrote true ∉ l)
    (hs : sleepsOf pre = [])
    (hhead : w = false → ∃ tl, pre = SendEv.reconn :: tl) :
    SendSpec delays w (res, pre) :=
  ⟨hw, hmem, hlast, ⟨0, by rw [hs]; rfl⟩, hhead⟩

lemma sendspec_cons (d : ℚ) (rest : List ℚ) (w w2 : Bool) (pre : List SendEv)
    (r : Bool × List SendEv)
    (hw : wroteCount pre ≤ 1) (hnt : SendEv.wrote true ∉ pre) (hs : sleepsOf pre = [d])
    (hhead : w = false → ∃ tl, pre = SendEv.reconn :: tl)
    (hr : SendSpec rest w2 r) : SendSpec (d :: rest) w (r.1, pre ++ r.2) := by
  obtain ⟨h1, h2, h3, h4, -⟩ := hr
  refine ⟨?_, ?_, ?_, ?_, ?_⟩
  · simp only [wroteCount_append, List.length_cons]
    omega
  · rw [List.mem_append]
    constructor
    · intro h; exact Or.inr (h2.mp h)
    · rintro (h | h)
      · exact absurd h hnt
      · exact h2.mpr h
  · intro h
    obtain ⟨l, hl, hnl⟩ := h3 h
    refine ⟨pre ++ l, by rw [hl, List.append_assoc], ?_⟩
    rw [List.mem_append]
    rintro (h' | h')
    · exact hnt h'
    · exact hnl h'
  · obtain ⟨k, hk⟩ := h4
    exact ⟨k + 1, by rw [sleepsOf_append, hs, hk]; rfl⟩
  · intro hwf
    obtain ⟨tl, htl⟩ := hhead hwf
    exact ⟨tl ++ r.2, by rw [htl]; rfl⟩

lemma send_go_spec (env : SendEnv) :
    ∀ (delays : List ℚ) (w c : Bool) (rc wc : Nat),
      SendSpec delays w (send_go env delays w c rc wc) := by
  intro delays
  induction delays with
  | nil =>
    intro w c rc wc
    simp only [send_go]
    cases hw : w
    · cases hwa : env.reconnWriter rc
      · simp only [Bool.false_eq_true, reduceIte, hwa]
        exact sendspec_done [] false [.reconn] false (by simp [wroteCount]) (by simp)
          (by simp) (by simp [sleepsOf]) (fun _ => ⟨[], rfl⟩)
      · cases hok : env.writeOk wc
        · simp only [Bool.false_eq_true, reduceIte, hwa, hok, List.cons_append,
            List.nil_append]
          exact sendspec_done [] false [.reconn, .wrote false] false (by simp [wroteCount])
            (by simp) (by simp) (by simp [sleepsOf]) (fun _ => ⟨_, rfl⟩)
        · simp only [Bool.false_eq_true, reduceIte, hwa, hok, List.cons_append,
            List.nil_append]
          exact sendspec_done [] false [.reconn, .wrote true] true (by simp [wroteCount])
            (by simp) (fun _ => ⟨[.reconn], rfl, by simp⟩) (by simp [sleepsOf])
            (fun _ => ⟨_, rfl⟩)
    · cases hok : env.writeOk wc
      · simp only [Bool.false_eq_true, reduceIte, hok, List.nil_append]
        exact sendspec_done [] true [.wrote false] false (by simp [wroteCount]) (by simp)
          (by simp) (by simp [sleepsOf]) (fun h => Bool.noConfusion h)
      · simp only [Bool.false_eq_true, reduceIte, hok, List.nil_append]
        exact sendspec_done [] true [.wrote true] true (by simp [wroteCount]) (by simp)
          (fun _ => ⟨[], rfl, by simp⟩) (by simp [sleepsOf]) (fun h => Bool.noConfusion h)
  | cons d rest ih =>
    intro w c rc wc
    simp only [send_go]
    cases hw : w
    · cases hwa : env.reconnWriter rc
      · cases hcc : env.reconnConn rc
        · simp only [Bool.false_eq_true, reduceIte, hwa, hcc, List.cons_append,
            List.nil_append]
          exact sendspec_cons d rest false _ [.reconn, .slept d, .reconn] _
            (by simp [wroteCount]) (by simp) (by simp [sleepsOf]) (fun _ => ⟨_, rfl⟩)
            (ih _ _ _ _)
        · simp only [Bool.false_eq_true, reduceIte, hwa, hcc, List.cons_append,
            List.nil_append, List.append_nil]
          exact sendspec_cons d rest false _ [.reconn, .slept d] _
            (by simp [wroteCount]) (by simp) (by simp [sleepsOf]) (fun _ => ⟨_, rfl⟩)
            (ih _ _ _ _)
      · cases hok : env.writeOk wc
        · cases hcc : env.reconnConn rc
          · simp only [Bool.false_eq_true, reduceIte, hwa, hok, hcc, List.cons_append,
              List.nil_append]
            exact sendspec_cons d rest false _ [.reconn, .wrote false, .slept d, .reconn] _
              (by simp [wroteCount]) (by simp) (by simp [sleepsOf]) (fun _ => ⟨_, rfl⟩)
              (ih _ _ _ _)
          · simp only [Bool.false_eq_true, reduceIte, hwa, hok, hcc, List.cons_append,
              List.nil_append, List.append_nil]
            exact sendspec_cons d rest false _ [.reconn, .wrote false, .slept d] _
              (by simp [wroteCount]) (by simp) (by simp [sleepsOf]) (fun _ => ⟨_, rfl⟩)
              (ih _ _ _ _)
        · simp only [Bool.false_eq_true, reduceIte, hwa, hok, List.cons_append,
            List.nil_append]
          exact sendspec_done (d :: rest) false [.reconn, .wrote true] true
            (by simp [wroteCount]) (by simp) (fun _ => ⟨[.reconn], rfl, by simp⟩)
            (by simp [sleepsOf]) (fun _ => ⟨_, rfl⟩)
    · cases hok : env.writeOk wc
      · cases hc : c
        · simp only [Bool.false_eq_true, reduceIte, hok, hc, List.cons_append,
            List.nil_append]
          exact sendspec_cons d rest true _ [.wrote false, .slept d, .reconn] _
            (by simp [wroteCount]) (by simp) (by simp [sleepsOf])
            (fun h => Bool.noConfusion h) (ih _ _ _ _)
        · simp only [Bool.false_eq_true, reduceIte, hok, hc, List.cons_append,
            List.nil_append, List.append_nil]
          exact sendspec_cons d rest true _ [.wrote false, .slept d] _
            (by simp [wroteCount]) (by simp) (by simp [sleepsOf])
            (fun h => Bool.noConfusion h) (ih _ _ _ _)
      · simp only [Bool.false_eq_true, reduceIte, hok, List.nil_append]
        exact sendspec_done (d :: rest) true [.wrote true] true (by simp [wroteCount])
          (by simp) (fun _ => ⟨[], rfl, by simp⟩) (by simp [sleepsOf])
          (fun h => Bool.noConfusion h)

/-- Claim C8: `send_packet` makes at most 4 write attempts, returns
`True` exactly when a write succeeded (the first success ends the call),
sleeps a prefix of the escalating delay table `0.5s, 1s, 2s` between
attempts, triggers a reconnect first whenever the writer is absent,
and — being a total function of its environment, write exceptions
included as data — never propagates an exception to its caller. -/
theorem send_packet_retry_policy (env : SendEnv) (writer connected : Bool) :
    wroteCount (send_packet env writer connected).2 ≤ 4 ∧
    ((send_packet env writer connected).1 = true ↔
      SendEv.wrote true ∈ (send_packet env writer connected).2) ∧
    ((send_packet env writer connected).1 = true →
      ∃ l, (send_packet env writer connected).2 = l ++ [SendEv.wrote true] ∧
        SendEv.wrote true ∉ l) ∧
    (∃ k, sleepsOf (send_packet env writer connected).2 = SEND_DELAYS.take k) ∧
    (writer = false →
      ∃ tl, (send_packet env writer connected).2 = SendEv.reconn :: tl) := by
  obtain ⟨h1, h2, h3, h4, h5⟩ := send_go_spec env SEND_DELAYS writer connected 0 0
  exact ⟨h1, h2, h3, h4, h5⟩

theorem send_packet_retry_policy_witness :
    (send_packet sendDemoEnv true true).1 = true ∧
    wroteCount (send_packet sendDemoEnv true true).2 ≤ 4 := by
  refine ⟨(send_packet_retry_policy sendDemoEnv true true).2.1.mpr (by decide), ?_⟩
  exact (send_packet_retry_policy sendDemoEnv true true).1

lemma storeRange_length : ∀ (xs l : List Nat) (s : Nat),
    (storeRange l s xs).length = l.length := by
  intro xs
  induction xs with
  | nil => intro l s; rfl
  | cons x t ih =>
    intro l s
    simp only [storeRange, ih, List.length_set]

lemma set_take_succ : ∀ (l : List Nat) (s x : Nat), s < l.length →
    (l.set s x).take (s + 1) = l.take s ++ [x] := by
  intro l
  induction l with
  | nil => intro s x h; simp at h
  | cons y t ih =>
    intro s x h
    cases s with
    | zero => simp
    | succ m =>
      simp only [List.set, List.take_succ_cons, List.cons_append]
      rw [ih m x (by simpa using h)]

lemma storeRange_take : ∀ (xs l : List Nat) (s : Nat), s + xs.length ≤ l.length →
    (storeRange l s xs).take (s + xs.length) = l.take s ++ xs := by
  intro xs
  induction xs with
  | nil => intro l s h; simp [storeRange]
  | cons x t ih =>
    intro l s h
    simp only [storeRange, List.length_cons]
    have harr : s + (t.length + 1) = (s + 1) + t.length := by omega
    rw [harr, ih (l.set s x) (s + 1) (by rw [List.length_set]; simpa [harr] using h)]
    rw [set_take_succ l s x (by simp at h; omega)]
    simp

lemma write_count_le (b : RingBuffer) (c : List Nat)
    (hcount : b.count ≤ b.size) (hc : c.length ≤ b.size) :
    (b.write c).1.count ≤ b.size := by
  simp only [RingBuffer.write]
  split
  · exact hcount
  · split
    · simp only [RingBuffer.clear]
      omega
    · rename_i hfree
      simp only []
      omega

lemma write_preserves (b : RingBuffer) (c : List Nat) :
    (b.write c).1.size = b.size ∧ (b.write c).1.data.length = b.data.length := by
  simp only [RingBuffer.write]
  split
  · exact ⟨rfl, rfl⟩
  · split <;> (refine ⟨rfl, ?_⟩; split <;> simp [RingBuffer.clear, storeRange_length])

lemma applyOp_size (b : RingBuffer) (op : RBOp) : (applyOp b op).size = b.size := by
  cases op with
  | write c => exact (write_preserves b c).1
  | peek n => rfl
  | advance n => rfl
  | clear => rfl

lemma applyOp_inv (b : RingBuffer) (op : RBOp)
    (hcount : b.count ≤ b.size) (hdata : b.data.length = b.size)
    (hop : ∀ c, op = RBOp.write c → c.length ≤ b.size) :
    (applyOp b op).count ≤ (applyOp b op).size ∧
    (applyOp b op).data.length = (applyOp b op).size := by
  cases op with
  | write c =>
    have h1 := write_count_le b c hcount (hop c rfl)
    have h2 := write_preserves b c
    simp only [applyOp]
    exact ⟨by rw [h2.1]; exact h1, by rw [h2.1, h2.2]; exact hdata⟩
  | peek n => exact ⟨hcount, hdata⟩
  | advance n =>
    simp only [applyOp, RingBuffer.advance]
    exact ⟨by omega, hdata⟩
  | clear => exact ⟨by simp [applyOp, RingBuffer.clear], hdata⟩

lemma applyOps_inv : ∀ (ops : List RBOp) (b : RingBuffer),
    b.count ≤ b.size → b.data.length = b.size →
    (∀ c, RBOp.write c ∈ ops → c.length ≤ b.size) →
    (applyOps b ops).count ≤ (applyOps b ops).size ∧
    (applyOps b ops).size = b.size := by
  intro ops
  induction ops with
  | nil => intro b h1 _ _; exact ⟨h1, rfl⟩
  | cons op t ih =>
    intro b h1 h2 h3
    have hstep := applyOp_inv b op h1 h2 (fun c hc => h3 c (by rw [hc]; exact List.mem_cons_self _ _))
    have hsize := applyOp_size b op
    have := ih (applyOp b op) hstep.1 hstep.2
      (fun c hc => by rw [hsize]; exact h3 c (List.mem_cons_of_mem _ hc))
    exact ⟨this.1, by rw [applyOps, this.2, hsize]⟩

lemma write_overflow_full (b : RingBuffer) (c : List Nat)
    (_hcount : b.count ≤ b.size) (hdata : b.data.length = b.size)
    (hle : c.length ≤ b.size) (hover : b.size - b.count < c.length) :
    (b.write c).1.count = c.length ∧
    RingBuffer.peek (b.write c).1 ((b.write c).1.count) = c := by
  have hn0 : ¬ (c.length = 0) := by omega
  have hfc : min c.length (b.size - 0) = c.length := by omega
  have hw : (b.write c).1 =
      { data := storeRange b.data 0 (c.take c.length), size := b.size,
        head := (0 + c.length) % b.size, tail := 0, count := 0 + c.length } := by
    simp only [RingBuffer.write, if_neg hn0, if_pos hover, RingBuffer.clear, hfc,
      Nat.lt_irrefl, if_false, reduceIte]
  rw [List.take_length] at hw
  rw [hw]
  have hcnt : (0 : Nat) + c.length = c.length := by omega
  constructor
  · exact hcnt
  · simp only [RingBuffer.peek, hcnt, Nat.sub_zero, min_self, if_neg hn0, List.drop_zero]
    have hfc2 : min c.length b.size = c.length := by omega
    simp only [hfc2, Nat.lt_irrefl, if_false, reduceIte]
    have hst := storeRange_take c b.data 0 (by rw [hdata]; omega)
    simpa using hst

/-- Claim C9: after any sequence of `write` (each chunk no longer than
the capacity), `peek`, `advance` and `clear` operations on a fresh
`RingBuffer`, the buffered count stays within `0 ≤ count ≤ capacity`;
and a `write` whose chunk exceeds the current free space first clears
the whole buffer (full clear-and-rewrite), so that afterwards the buffer
holds exactly the new chunk. -/
theorem ringbuffer_invariant :
    (∀ (size : Nat) (ops : List RBOp),
      (∀ c, RBOp.write c ∈ ops → c.length ≤ size) →
      (applyOps (RingBuffer.init size) ops).count ≤ size) ∧
    (∀ (b : RingBuffer) (c : List Nat), b.count ≤ b.size → b.data.length = b.size →
      c.length ≤ b.size → b.size - b.count < c.length →
      (b.write c).1.count = c.length ∧
      RingBuffer.peek (b.write c).1 ((b.write c).1.count) = c) := by
  constructor
  · intro size ops hops
    have h := applyOps_inv ops (RingBuffer.init size) (by simp [RingBuffer.init])
      (by simp [RingBuffer.init]) (by simpa [RingBuffer.init] using hops)
    calc (applyOps (RingBuffer.init size) ops).count
        ≤ (applyOps (RingBuffer.init size) ops).size := h.1
      _ = size := h.2
  · exact write_overflow_full

theorem ringbuffer_invariant_witness :
    (applyOps (RingBuffer.init 4) [RBOp.write [1, 2, 3], RBOp.advance 1,
      RBOp.write [7, 8, 9]]).count ≤ 4 ∧
    (rbDemo.write [7, 8, 9]).1.count = 3 ∧
    RingBuffer.peek (rbDemo.write [7, 8, 9]).1 ((rbDemo.write [7, 8, 9]).1.count) =
      [7, 8, 9] := by
  refine ⟨ringbuffer_invariant.1 4 [RBOp.write [1, 2, 3], RBOp.advance 1,
    RBOp.write [7, 8, 9]]
    (by
      intro c hc
      simp only [List.mem_cons, List.not_mem_nil, or_false] at hc
      rcases hc with h | h | h
      · injection h with h; subst h; decide
      · exact RBOp.noConfusion h
      · injection h with h; subst h; decide), ?_, ?_⟩
  · exact (ringbuffer_invariant.2 rbDemo [7, 8, 9] (by decide) (by decide) (by decide)
      (by decide)).1
  · exact (ringbuffer_invariant.2 rbDemo [7, 8, 9] (by decide) (by decide) (by decide)
      (by decide)).2

lemma alookup_nil {α β : Type} [DecidableEq α] (k : α) :
    alookup ([] : List (α × β)) k = Option.none := rfl

lemma alookup_cons {α β : Type} [DecidableEq α] (k k' : α) (v : β) (m : List (α × β)) :
    alookup ((k, v) :: m) k' = if k = k' then some v else alookup m k' := by
  by_cases h : k = k' <;> simp [alookup, List.find?, h]

lemma pyMod1_if (c : Prop) [Decidable c] (n : Nat) :
    pyMod1 (if c then (0 : ℚ) else (n : ℚ)) = 0 := by
  split <;> simp [pyMod1, Int.floor_natCast]

lemma str_append_ne (s a b : String) (h : a ≠ b) : s ++ a ≠ s ++ b := by
  intro heq
  apply h
  have hd := congrArg String.data heq
  rw [String.data_append, String.data_append] at hd
  have hab := List.append_cancel_left hd
  cases a
  cases b
  exact congrArg String.mk hab

lemma handle_thermostat_idem (f : List Nat) :
    (handle_thermostat (handle_thermostat Storage.empty f).2 f).1 =
      (handle_thermostat Storage.empty f).1 := by
  by_cases hcmd : frame_command f = 0
  · have hpm : ¬ (pyMod1 (if payload f 2 = 255 ∨
        ¬ ((0 : ℚ) ≤ (payload f 2 : ℚ) ∧ (payload f 2 : ℚ) ≤ 50) then 0
        else (payload f 2 : ℚ)) = 1 / 2) := by
      rw [pyMod1_if]
      norm_num
    have hcs := str_append_ne (uniqueId ⟨dev_type f, dev_room f, 0, .none⟩)
      "_thermo_current" "_thermo_step" (by decide)
    have hts := str_append_ne (uniqueId ⟨dev_type f, dev_room f, 0, .none⟩)
      "_thermo_target" "_thermo_step" (by decide)
    have hct := str_append_ne (uniqueId ⟨dev_type f, dev_room f, 0, .none⟩)
      "_thermo_current" "_thermo_target" (by decide)
    simp only [handle_thermostat, hcmd, reduceIte, Storage.empty, alookup_nil,
      Option.getD_none, hpm, false_and, if_false]
    repeat' split
    all_goals simp_all [alookup_cons, aset, alookup_nil]
  · simp [handle_thermostat, hcmd]

lemma handle_elevator_idem (f : List Nat) :
    (handle_elevator (handle_elevator Storage.empty f).2 f).1 =
      (handle_elevator Storage.empty f).1 := by
  simp only [handle_elevator, Storage.empty]
  repeat' split
  all_goals simp_all

lemma handle_ventilation_storage (f : List Nat)
    (hexcl : ¬ (frame_command f = 0 ∧
      (alookup VENTILATION_PRESET_MAP (payload f 1)).getD "unknown" ≠ "unknown" ∧
      (alookup VENTILATION_PRESET_MAP (payload f 1)).getD "unknown" ≠ "ventilation")) :
    (handle_ventilation Storage.empty f).2 = Storage.empty := by
  by_cases hcmd : frame_command f = 0
  · simp only [handle_ventilation, hcmd, reduceIte]
    rw [if_neg (fun hc => hexcl ⟨hcmd, hc.1, hc.2⟩)]
  · simp [handle_ventilation, hcmd]

lemma keyList_map_packet (l : List DeviceState) (p : List Nat) :
    keyList (l.map fun d => { d with packet := p }) = keyList l := by
  simp only [keyList, List.map_map]
  have hcomp : ((fun d : DeviceState => d.key) ∘ fun d => { d with packet := p }) =
      fun d : DeviceState => d.key := funext fun d => rfl
  rw [hcomp]

lemma keyList_filterMap_sublist {α : Type} (g : α → Option DeviceState) (kf : α → DeviceKey)
    (hg : ∀ x d, g x = some d → d.key = kf x) :
    ∀ l : List α, (keyList (l.filterMap g)).Sublist (l.map kf) := by
  intro l
  induction l with
  | nil => simp [keyList]
  | cons x t ih =>
    rcases hx : g x with - | d
    · rw [List.filterMap_cons_none hx, List.map_cons]
      exact ih.cons _
    · rw [List.filterMap_cons_some hx, List.map_cons]
      simp only [keyList, List.map_cons]
      rw [hg x d hx]
      exact ih.cons₂ _

lemma handle_cutoff_nodup (f : List Nat) : (keyList (handle_cutoff f)).Nodup := by
  simp only [handle_cutoff]
  split <;> simp [keyList]

lemma handle_switch_nodup (f : List Nat) : (keyList (handle_switch f)).Nodup := by
  simp only [handle_switch]
  split
  · simp only [keyList, List.map_map]
    refine List.Nodup.map ?_ (List.nodup_range 8)
    intro a b hab
    simpa using congrArg DeviceKey.device_index hab
  · simp [keyList]

lemma handle_thermostat_nodup (st : Storage) (f : List Nat) :
    (keyList (handle_thermostat st f).1).Nodup := by
  simp only [handle_thermostat]
  repeat' split
  all_goals simp [keyList]

lemma handle_airconditioner_nodup (f : List Nat) :
    (keyList (handle_airconditioner f)).Nodup := by
  simp only [handle_airconditioner]
  repeat' split
  all_goals simp [keyList]

lemma handle_ventilation_nodup (st : Storage) (f : List Nat) :
    (keyList (handle_ventilation st f).1).Nodup := by
  simp only [handle_ventilation]
  repeat' split
  all_goals simp [keyList]

lemma handle_gasvalve_nodup (f : List Nat) : (keyList (handle_gasvalve f)).Nodup := by
  simp only [handle_gasvalve]
  split <;> simp [keyList]

lemma handle_elevator_nodup (st : Storage) (f : List Nat) :
    (keyList (handle_elevator st f).1).Nodup := by
  simp only [handle_elevator]
  repeat' split
  all_goals simp [keyList]

lemma handle_motion_nodup (f : List Nat) : (keyList (handle_motion f)).Nodup := by
  simp only [handle_motion]
  split <;> simp [keyList]

lemma handle_airquality_nodup (f : List Nat) : (keyList (handle_airquality f)).Nodup := by
  simp only [handle_airquality]
  split
  · refine List.Nodup.sublist
      (keyList_filterMap_sublist _ (fun e => ⟨dev_type f, dev_room f, 0, e.1⟩) ?_ _) ?_
    · intro x d h
      split at h
      · injection h with h
        subst h
        rfl
      · exact Option.noConfusion h
    · simp
  · simp [keyList]

lemma dispatch_keys_nodup (st : Storage) (f : List Nat) :
    (keyList (dispatch st f).1).Nodup := by
  by_cases hck : checksum ((f.drop 2).take 16) = f.getD 18 0
  · cases hdt : dev_type f with
    | light =>
      by_cases hroom : dev_room f = 0xFF
      · have hout : (dispatch st f).1 = (handle_cutoff f).map fun d => { d with packet := f } := by
          simp only [dispatch, hdt]
          rw [if_neg (not_not_intro hck), if_pos hroom]
        rw [hout, keyList_map_packet]
        exact handle_cutoff_nodup f
      · have hout : (dispatch st f).1 = (handle_switch f).map fun d => { d with packet := f } := by
          simp only [dispatch, hdt]
          rw [if_neg (not_not_intro hck), if_neg hroom]
        rw [hout, keyList_map_packet]
        exact handle_switch_nodup f
    | outlet =>
      have hout : (dispatch st f).1 = (handle_switch f).map fun d => { d with packet := f } := by
        simp only [dispatch, hdt]
        rw [if_neg (not_not_intro hck)]
      rw [hout, keyList_map_packet]
      exact handle_switch_nodup f
    | thermostat =>
      have hout : (dispatch st f).1 =
          (handle_thermostat st f).1.map fun d => { d with packet := f } := by
        simp only [dispatch, hdt]
        rw [if_neg (not_not_intro hck)]
      rw [hout, keyList_map_packet]
      exact handle_thermostat_nodup st f
    | airconditioner =>
      have hout : (dispatch st f).1 =
          (handle_airconditioner f).map fun d => { d with packet := f } := by
        simp only [dispatch, hdt]
        rw [if_neg (not_not_intro hck)]
      rw [hout, keyList_map_packet]
      exact handle_airconditioner_nodup f
    | ventilation =>
      have hout : (dispatch st f).1 =
          (handle_ventilation st f).1.map fun d => { d with packet := f } := by
        simp only [dispatch, hdt]
        rw [if_neg (not_not_intro hck)]
      rw [hout, keyList_map_packet]
      exact handle_ventilation_nodup st f
    | gasvalve =>
      have hout : (dispatch st f).1 = (handle_gasvalve f).map fun d => { d with packet := f } := by
        simp only [dispatch, hdt]
        rw [if_neg (not_not_intro hck)]
      rw [hout, keyList_map_packet]
      exact handle_gasvalve_nodup f
    | elevator =>
      have hout : (dispatch st f).1 =
          (handle_elevator st f).1.map fun d => { d with packet := f } := by
        simp only [dispatch, hdt]
        rw [if_neg (not_not_intro hck)]
      rw [hout, keyList_map_packet]
      exact handle_elevator_nodup st f
    | motion =>
      have hout : (dispatch st f).1 = (handle_motion f).map fun d => { d with packet := f } := by
        simp only [dispatch, hdt]
        rw [if_neg (not_not_intro hck)]
      rw [hout, keyList_map_packet]
      exact handle_motion_nodup f
    | airquality =>
      have hout : (dispatch st f).1 =
          (handle_airquality f).map fun d => { d with packet := f } := by
        simp only [dispatch, hdt]
        rw [if_neg (not_not_intro hck)]
      rw [hout, keyList_map_packet]
      exact handle_airquality_nodup f
    | lightcutoff =>
      have hout : (dispatch st f).1 = [] := by
        simp only [dispatch, hdt]
        rw [if_neg (not_not_intro hck)]
      rw [hout]
      simp [keyList]
    | unknown =>
      have hout : (dispatch st f).1 = [] := by
        simp only [dispatch, hdt]
        rw [if_neg (not_not_intro hck)]
      rw [hout]
      simp [keyList]
  · have hout : (dispatch st f).1 = [] := by
      simp only [dispatch]
      rw [if_pos hck]
    rw [hout]
    simp [keyList]

lemma upsert_fresh (reg : Registry) (d : DeviceState)
    (h : alookup reg.states d.key = Option.none) :
    upsert reg d true = ((true, true),
      ⟨(d.key, d) :: reg.states,
       aset reg.byPlatform d.platform
         (aset (bpGet reg.byPlatform d.platform) (uniqueId d.key) d)⟩) := by
  simp [upsert, h, aset]

lemma upsert_same (reg : Registry) (d : DeviceState)
    (h : alookup reg.states d.key = some d) :
    upsert reg d true = ((false, false), reg) := by
  simp [upsert, h]

lemma upsertAll_fresh : ∀ (l : List DeviceState) (reg : Registry),
    (∀ d, d ∈ l → alookup reg.states d.key = Option.none) →
    (keyList l).Nodup →
    (upsertAll reg l).1 = List.replicate l.length (true, true) ∧
    (∀ d, d ∈ l → alookup (upsertAll reg l).2.states d.key = some d) ∧
    (∀ k, k ∉ keyList l → alookup (upsertAll reg l).2.states k = alookup reg.states k) := by
  intro l
  induction l with
  | nil =>
    intro reg _ _
    exact ⟨rfl, by simp, fun k _ => rfl⟩
  | cons d t ih =>
    intro reg hfresh hnodup
    have hd := hfresh d (List.mem_cons_self _ _)
    have hup := upsert_fresh reg d hd
    have hnodup' : (d.key :: keyList t).Nodup := by simpa [keyList] using hnodup
    have hkey : d.key ∉ keyList t := (List.nodup_cons.mp hnodup').1
    have hnd : (keyList t).Nodup := (List.nodup_cons.mp hnodup').2
    have hreg1 : (upsert reg d true).2.states = (d.key, d) :: reg.states := by rw [hup]
    have hfresh1 : ∀ d2, d2 ∈ t → alookup (upsert reg d true).2.states d2.key = Option.none := by
      intro d2 h2
      rw [hreg1, alookup_cons, if_neg]
      · exact hfresh d2 (List.mem_cons_of_mem _ h2)
      · intro heq
        exact hkey (heq ▸ List.mem_map_of_mem (·.key) h2)
    obtain ⟨ih1, ih2, ih3⟩ := ih (upsert reg d true).2 hfresh1 hnd
    simp only [upsertAll]
    refine ⟨?_, ?_, ?_⟩
    · rw [show (upsert reg d true).1 = (true, true) from by rw [hup], ih1]
      simp [List.replicate_succ]
    · intro d2 h2
      rcases List.mem_cons.mp h2 with heq | hmem
      · subst heq
        rw [ih3 d2.key hkey, hreg1, alookup_cons, if_pos rfl]
      · exact ih2 d2 hmem
    · intro k hk
      have hk' : k ≠ d.key ∧ k ∉ keyList t := by
        simpa [keyList, not_or] using hk
      rw [ih3 k hk'.2, hreg1, alookup_cons, if_neg (fun h => hk'.1 h.symm)]

lemma upsertAll_same : ∀ (l : List DeviceState) (reg : Registry),
    (∀ d, d ∈ l → alookup reg.states d.key = some d) →
    (upsertAll reg l).1 = List.replicate l.length (false, false) := by
  intro l
  induction l with
  | nil => intro reg _; rfl
  | cons d t ih =>
    intro reg h
    have hup := upsert_same reg d (h d (List.mem_cons_self _ _))
    simp only [upsertAll]
    rw [hup]
    simp only [List.length_cons, List.replicate_succ, List.cons.injEq]
    exact ⟨trivial, ih reg (fun d2 h2 => h d2 (List.mem_cons_of_mem _ h2))⟩

/-- Claim C3 (amended): starting from an empty calibration store,
decoding the identical valid frame bytes twice yields equal
`DeviceState` lists — and feeding them into `EntityRegistry.upsert`
twice yields `(isNew, changed) = (true, true)` for every state of the
first pass and `(false, false)` for every state of the second — for
every frame except a ventilation status frame carrying a
not-yet-discovered preset (one that is neither "unknown" nor
"ventilation"): there the preset-discovery write to the calibration
store happens after the attribute dictionary has read it, so the second
decode differs. -/
theorem decode_idempotent (f : List Nat)
    (hexcl : ¬ (dev_type f = DeviceType.ventilation ∧ frame_command f = 0 ∧
      (alookup VENTILATION_PRESET_MAP (payload f 1)).getD "unknown" ≠ "unknown" ∧
      (alookup VENTILATION_PRESET_MAP (payload f 1)).getD "unknown" ≠ "ventilation")) :
    (dispatch (dispatch Storage.empty f).2 f).1 = (dispatch Storage.empty f).1 ∧
    (upsertAll Registry.empty (dispatch Storage.empty f).1).1 =
      List.replicate (dispatch Storage.empty f).1.length (true, true) ∧
    (upsertAll (upsertAll Registry.empty (dispatch Storage.empty f).1).2
      (dispatch (dispatch Storage.empty f).2 f).1).1 =
      List.replicate (dispatch Storage.empty f).1.length (false, false) := by
  have hl : (dispatch (dispatch Storage.empty f).2 f).1 = (dispatch Storage.empty f).1 := by
    by_cases hck : checksum ((f.drop 2).take 16) = f.getD 18 0
    · cases hdt : dev_type f with
      | light =>
        have hst : (dispatch Storage.empty f).2 = Storage.empty := by
          simp only [dispatch, hdt]
          rw [if_neg (not_not_intro hck)]
          split <;> rfl
        rw [hst]
      | outlet =>
        have hst : (dispatch Storage.empty f).2 = Storage.empty := by
          simp only [dispatch, hdt]
          rw [if_neg (not_not_intro hck)]
        rw [hst]
      | thermostat =>
        have hfst : ∀ st : Storage, (dispatch st f).1 =
            (handle_thermostat st f).1.map (fun d => { d with packet := f }) := by
          intro st
          simp only [dispatch, hdt]
          rw [if_neg (not_not_intro hck)]
        have hsnd : (dispatch Storage.empty f).2 = (handle_thermostat Storage.empty f).2 := by
          simp only [dispatch, hdt]
          rw [if_neg (not_not_intro hck)]
        rw [hfst, hfst, hsnd, handle_thermostat_idem]
      | airconditioner =>
        have hst : (dispatch Storage.empty f).2 = Storage.empty := by
          simp only [dispatch, hdt]
          rw [if_neg (not_not_intro hck)]
        rw [hst]
      | ventilation =>
        have hv : (handle_ventilation Storage.empty f).2 = Storage.empty :=
          handle_ventilation_storage f (fun hc => hexcl ⟨hdt, hc.1, hc.2.1, hc.2.2⟩)
        have hst : (dispatch Storage.empty f).2 = Storage.empty := by
          simp only [dispatch, hdt]
          rw [if_neg (not_not_intro hck)]
          exact hv
        rw [hst]
      | gasvalve =>
        have hst : (dispatch Storage.empty f).2 = Storage.empty := by
          simp only [dispatch, hdt]
          rw [if_neg (not_not_intro hck)]
        rw [hst]
      | elevator =>
        have hfst : ∀ st : Storage, (dispatch st f).1 =
            (handle_elevator st f).1.map (fun d => { d with packet := f }) := by
          intro st
          simp only [dispatch, hdt]
          rw [if_neg (not_not_intro hck)]
        have hsnd : (dispatch Storage.empty f).2 = (handle_elevator Storage.empty f).2 := by
          simp only [dispatch, hdt]
          rw [if_neg (not_not_intro hck)]
        rw [hfst, hfst, hsnd, handle_elevator_idem]
      | motion =>
        have hst : (dispatch Storage.empty f).2 = Storage.empty := by
          simp only [dispatch, hdt]
          rw [if_neg (not_not_intro hck)]
        rw [hst]
      | airquality =>
        have hst : (dispatch Storage.empty f).2 = Storage.empty := by
          simp only [dispatch, hdt]
          rw [if_neg (not_not_intro hck)]
        rw [hst]
      | lightcutoff =>
        have hst : (dispatch Storage.empty f).2 = Storage.empty := by
          simp only [dispatch, hdt]
          rw [if_neg (not_not_intro hck)]
        rw [hst]
      | unknown =>
        have hst : (dispatch Storage.empty f).2 = Storage.empty := by
          simp only [dispatch, hdt]
          rw [if_neg (not_not_intro hck)]
        rw [hst]
    · have hst : (dispatch Storage.empty f).2 = Storage.empty := by
        simp only [dispatch]
        rw [if_pos hck]
      rw [hst]
  have hnodup := dispatch_keys_nodup Storage.empty f
  have hfreshAll := upsertAll_fresh (dispatch Storage.empty f).1 Registry.empty
    (fun d _ => rfl) hnodup
  refine ⟨hl, hfreshAll.1, ?_⟩
  rw [hl]
  exact upsertAll_same (dispatch Storage.empty f).1 _ hfreshAll.2.1

theorem decode_idempotent_witness :
    (dispatch (dispatch Storage.empty lightDemoFrame).2 lightDemoFrame).1 =
      (dispatch Storage.empty lightDemoFrame).1 ∧
    (upsertAll Registry.empty (dispatch Storage.empty lightDemoFrame).1).1 =
      List.replicate (dispatch Storage.empty lightDemoFrame).1.length (true, true) :=
  ⟨(decode_idempotent lightDemoFrame (by decide)).1,
   (decode_idempotent lightDemoFrame (by decide)).2.1⟩

end Kocom
